import Mathlib

/-!
Shallow embedding of the NextChamp per-frame biomechanical analysis engine
(`server/test_services/utils.py`, class `ExerciseAnalyzer`) and proofs about it.

Modelling conventions:
* Python floats are modelled as `ℚ` (the engine only does field arithmetic and
  comparisons on them; the transcendental geometry layer — `np.arccos`,
  `np.linalg.norm` — is kept separate, see `calculate_angle` over `ℝ`, and is
  passed into the frame analyzers as an abstract `Geom` record, since every
  claim about the analyzers is universally quantified over the measured angle
  values).
* Python `time.time()` readings are modelled by explicit `now : ℚ` parameters.
* Attributes created lazily via `hasattr`/`getattr(..., None)` are `Option`
  fields starting at `none`; `delattr` sets them back to `none`.
* Python dicts of per-frame metrics are association lists `List (String × MVal)`
  preserving insertion order; the reference-metrics dict is an association list
  `List (String × RmVal)` (numbers and 2-tuples).
* `str.lower()` / substring tests (`kw in s`) are `lowerStr` / `substrOf`.
* `" | ".join(xs)` is `joinBar` (same recursion as CPython's join).
* Fields of `ExerciseAnalyzer.__init__` that no analyzed code path ever reads
  (`pose`, `user_profile`, `feedback`, `previous_state`, `frame_counter`,
  `state_confidence`) are omitted from the state record.
-/

/-- `ExerciseType` enumeration from the source. -/
inductive ExerciseType where
  | VERTICAL_JUMP
  | SHUTTLE_RUN
  | SITUPS
  | PUSHUPS
  | PLANK_HOLD
  | STANDING_BROAD_JUMP
  | SQUATS
  | ENDURANCE_RUN
deriving DecidableEq, Repr

/-- A metrics-dictionary value: Python numbers (`int`/`float`) or strings. -/
inductive MVal where
  | num (q : ℚ)
  | str (s : String)
deriving DecidableEq, Repr

/-- A per-frame metrics record: insertion-ordered association list. -/
abbrev Metrics := List (String × MVal)

/-- A reference-metrics value: a number or a 2-tuple (angle range). -/
inductive RmVal where
  | num (q : ℚ)
  | pair (a b : ℚ)
deriving DecidableEq, Repr

abbrev RefMetrics := List (String × RmVal)

/-- `d[k]` on the reference-metrics dict, numeric entry. A missing key would
raise `KeyError` in Python; all modelled reads happen after
`_load_reference_metrics`, so the default `0` is unreachable. -/
def rmNum (m : RefMetrics) (k : String) : ℚ :=
  match m.lookup k with
  | some (RmVal.num q) => q
  | _ => 0

/-- `d[k]` on the reference-metrics dict, tuple entry. -/
def rmPair (m : RefMetrics) (k : String) : ℚ × ℚ :=
  match m.lookup k with
  | some (RmVal.pair a b) => (a, b)
  | _ => (0, 0)

/-- `d.get(k, default)` on the reference-metrics dict, numeric entry. -/
def rmNumD (m : RefMetrics) (k : String) (d : ℚ) : ℚ :=
  match m.lookup k with
  | some (RmVal.num q) => q
  | _ => d

/-- `d.get(k, (a, b))` on the reference-metrics dict, tuple entry. -/
def rmPairD (m : RefMetrics) (k : String) (d : ℚ × ℚ) : ℚ × ℚ :=
  match m.lookup k with
  | some (RmVal.pair a b) => (a, b)
  | _ => d

/-- `s.lower()`. -/
def lowerStr (s : String) : String :=
  String.mk (s.data.map Char.toLower)

/-- Python `needle in hay` on strings (substring containment). -/
def substrOf (needle hay : String) : Bool :=
  decide (needle.data <:+: hay.data)

/-- `" | ".join(xs)` — CPython join semantics. -/
def joinBar : List String → String
  | [] => ""
  | [a] => a
  | a :: b :: t => a ++ " | " ++ joinBar (b :: t)

/-- `FormError` tally (`self.form_errors` dict, fixed keys). -/
structure FormErrors where
  knee_alignment : ℕ := 0
  depth_issues : ℕ := 0
  torso_lean : ℕ := 0
  elbow_position : ℕ := 0
  body_alignment : ℕ := 0
  landing_form : ℕ := 0
  takeoff_form : ℕ := 0
  jump_asymmetry : ℕ := 0
deriving DecidableEq, Repr

/-- One frame's detected pose: the named 2-D joint coordinates used by the
analyzers, in normalized image space (the analyzers scale by frame w/h just as
the source multiplies `landmark.x * w`, `landmark.y * h`). -/
structure Landmarks where
  left_shoulder : ℚ × ℚ := (0, 0)
  right_shoulder : ℚ × ℚ := (0, 0)
  left_elbow : ℚ × ℚ := (0, 0)
  right_elbow : ℚ × ℚ := (0, 0)
  left_wrist : ℚ × ℚ := (0, 0)
  right_wrist : ℚ × ℚ := (0, 0)
  left_hip : ℚ × ℚ := (0, 0)
  right_hip : ℚ × ℚ := (0, 0)
  left_knee : ℚ × ℚ := (0, 0)
  right_knee : ℚ × ℚ := (0, 0)
  left_ankle : ℚ × ℚ := (0, 0)
  right_ankle : ℚ × ℚ := (0, 0)
deriving DecidableEq, Repr

/-- The transcendental geometry layer, abstracted: `angle` stands for
`ExerciseAnalyzer.calculate_angle` (arccos of normalized dot product, degrees),
`align` for `ExerciseAnalyzer._check_alignment`, and `torsoDeg` for the inline
torso-vs-horizontal arccos computation of `analyze_situps` (lines 919–937).
All theorems about the frame analyzers hold for every instantiation, i.e. for
all measured angle values. -/
structure Geom where
  angle : ℚ × ℚ → ℚ × ℚ → ℚ × ℚ → ℚ
  align : ℚ × ℚ → ℚ × ℚ → ℚ × ℚ → ℚ
  torsoDeg : ℚ × ℚ → ℚ × ℚ → ℚ

/-- Mutable session state of `ExerciseAnalyzer` (fields of `__init__` plus the
attributes created lazily by the phase detectors / `set_exercise_type`). -/
structure AnalyzerState where
  exercise_type : Option ExerciseType := none
  rep_count : ℕ := 0
  is_correct_form : Bool := true
  rep_phase : String := "waiting"
  reference_metrics : RefMetrics := []
  feedback_history : List String := []
  metrics_history : List Metrics := []
  start_time : Option ℚ := none
  form_errors : FormErrors := {}
  rep_quality_scores : List ℚ := []
  -- standing broad jump
  jump_distances : List ℚ := []
  best_distance : ℚ := 0
  current_jump_distance : ℚ := 0
  jump_attempts : ℕ := 0
  baseline_established : Bool := false
  jump_start_position : Option ℚ := none
  jump_landing_position : Option ℚ := none
  calibration_frames : ℕ := 0
  calibration_positions : List ℚ := []
  -- shuttle run
  shuttle_runs : List ℚ := []
  current_shuttle_distance : ℚ := 0
  shuttle_attempts : ℕ := 0
  direction_changes : ℕ := 0
  shuttle_start_time : Option ℚ := none
  shuttle_positions : List ℚ := []
  current_direction : Option String := none
  last_direction_change_pos : Option ℚ := none
  turn_start_time : Option ℚ := none
  running_start_pos : Option ℚ := none
  max_left_position : Option ℚ := none
  max_right_position : Option ℚ := none
  shuttle_run_times : List ℚ := []
  last_run_start_time : Option ℚ := none
  total_shuttle_time : ℚ := 0
  average_shuttle_time : ℚ := 0
  all_feedback_per_frame : List String := []
  -- attributes created lazily (hasattr / getattr(..., None) patterns)
  baseline_hip_height : Option ℚ := none
  baseline_ankle_height : Option ℚ := none
  baseline_hip_x : Option ℚ := none
  max_displacement_this_jump : Option ℚ := none
  furthest_position_this_jump : Option ℚ := none
  landing_stability_counter : ℕ := 0
  jump_trajectory : List ℚ := []
  plank_start_time : Option ℚ := none
  shuttle_baseline_x : Option ℚ := none
  prev_torso_angle : Option ℚ := none
deriving DecidableEq, Repr

/-- State of a fresh `ExerciseAnalyzer()` (the `__init__` defaults). -/
def initState : AnalyzerState := {}

/-- Positive-keyword list of `calculate_rep_quality` (line 578). -/
def repQualityPositives : List String :=
  ["good", "excellent", "perfect", "great", "nice", "complete", "rising",
   "controlled", "engage", "height"]

/-- Positive-keyword list of `calculate_overall_score` (line 1518). -/
def scorePositives : List String :=
  ["good", "excellent", "perfect", "great", "nice", "ready", "complete",
   "drive", "explode"]

/-- Positive-keyword list of `generate_comprehensive_report` (line 1931). -/
def reportPositives : List String :=
  ["good", "excellent", "perfect", "great", "nice", "complete"]

/-- `any(positive in fb.lower() for positive in kws)`. -/
def hasPositive (kws : List String) (fb : String) : Bool :=
  kws.any fun k => substrOf k (lowerStr fb)

/-- `ExerciseAnalyzer.calculate_rep_quality` (lines 569–581). -/
def calculate_rep_quality (s : AnalyzerState) : ℚ :=
  if s.metrics_history.length < 10 then 50
  else
    let recent_feedback := (s.feedback_history.reverse.take 10).reverse
    let good_frames :=
      (recent_feedback.filter fun fb => hasPositive repQualityPositives fb).length
    ((good_frames : ℚ) / (recent_feedback.length : ℚ)) * 100

/-- `ExerciseAnalyzer.detect_squat_phase` (lines 152–176): returns the new
phase and the state updated by the rep-completion side effects. -/
def detect_squat_phase (s : AnalyzerState) (knee_angle _hip_height : ℚ) :
    String × AnalyzerState :=
  let current_phase := s.rep_phase
  -- TOP_KNEE_ANGLE = 160, BOTTOM_KNEE_ANGLE = 100
  if knee_angle > 160 then
    if current_phase = "going_up" then
      let s := { s with rep_count := s.rep_count + 1 }
      let rep_quality := calculate_rep_quality s
      ("at_top", { s with rep_quality_scores := s.rep_quality_scores ++ [rep_quality] })
    else
      ("at_top", s)
  else if knee_angle < 100 then
    ("at_bottom", s)
  else if (current_phase = "at_top" ∨ current_phase = "going_up") ∧ knee_angle < 150 then
    ("going_down", s)
  else if (current_phase = "at_bottom" ∨ current_phase = "going_down") ∧ knee_angle > 110 then
    ("going_up", s)
  else
    (current_phase, s)

/-- `ExerciseAnalyzer._load_reference_metrics` (lines 631–736). -/
def load_reference_metrics (e : Option ExerciseType) : RefMetrics :=
  match e with
  | some ExerciseType.SQUATS =>
      [("knee_angle_range", RmVal.pair 70 120),
       ("torso_angle_range", RmVal.pair 60 110),
       ("hip_knee_ankle_alignment", RmVal.num (8/10)),
       ("depth_threshold", RmVal.num (1/2)),
       ("perfect_knee_angle", RmVal.num 90),
       ("perfect_torso_angle", RmVal.num 80)]
  | some ExerciseType.PUSHUPS =>
      [("elbow_angle_range", RmVal.pair 70 120),
       ("shoulder_hip_ankle_alignment", RmVal.num (85/100)),
       ("depth_threshold", RmVal.num (6/10)),
       ("perfect_elbow_angle", RmVal.num 90),
       ("perfect_alignment", RmVal.num (9/10))]
  | some ExerciseType.VERTICAL_JUMP =>
      [("prep_knee_angle_range", RmVal.pair 90 130),
       ("landing_knee_angle_range", RmVal.pair 100 140),
       ("hip_knee_ankle_alignment", RmVal.num (8/10)),
       ("min_air_time", RmVal.num (2/10)),
       ("max_prep_time", RmVal.num 2),
       ("perfect_prep_knee_angle", RmVal.num 110),
       ("perfect_landing_knee_angle", RmVal.num 120),
       ("symmetry_threshold", RmVal.num (9/10))]
  | some ExerciseType.SITUPS =>
      [("down_torso_angle_range", RmVal.pair 0 20),
       ("up_torso_angle_range", RmVal.pair 60 90),
       ("max_knee_bend", RmVal.num 140),
       ("min_knee_bend", RmVal.num 50),
       ("spine_alignment_threshold", RmVal.num (40/100)),
       ("controlled_speed_threshold", RmVal.num 30),
       ("full_range_motion", RmVal.num 1),
       ("perfect_down_angle", RmVal.num 25),
       ("perfect_up_angle", RmVal.num 80),
       ("perfect_knee_angle", RmVal.num 90)]
  | some ExerciseType.STANDING_BROAD_JUMP =>
      [("prep_knee_angle_range", RmVal.pair 90 130),
       ("landing_knee_angle_range", RmVal.pair 80 160),
       ("hip_knee_ankle_alignment", RmVal.num (8/10)),
       ("excellent_distance", RmVal.num 25),
       ("good_distance", RmVal.num 20),
       ("fair_distance", RmVal.num 15),
       ("minimum_distance", RmVal.num 8),
       ("perfect_prep_knee_angle", RmVal.num 110),
       ("perfect_landing_knee_angle", RmVal.num 120),
       ("symmetry_threshold", RmVal.num (9/10)),
       ("max_landing_sway", RmVal.num (5/100)),
       ("min_horizontal_movement", RmVal.num (5/100)),
       ("takeoff_detection_threshold", RmVal.num (2/100))]
  | some ExerciseType.PLANK_HOLD =>
      [("body_alignment_range", RmVal.pair 160 190),
       ("elbow_angle_range", RmVal.pair 80 100),
       ("min_hold_time", RmVal.num 10),
       ("target_hold_time", RmVal.num 60),
       ("perfect_alignment", RmVal.num 180),
       ("perfect_elbow_angle", RmVal.num 90),
       ("alignment_threshold", RmVal.num (9/10))]
  | some ExerciseType.SHUTTLE_RUN =>
      [("direction_change_threshold", RmVal.num (8/100)),
       ("speed_threshold", RmVal.num (2/100)),
       ("stationary_threshold", RmVal.num (1/100)),
       ("running_knee_angle_range", RmVal.pair 90 160),
       ("turn_knee_angle_range", RmVal.pair 80 140),
       ("hip_knee_ankle_alignment", RmVal.num (75/100)),
       ("min_shuttle_distance", RmVal.num (15/100)),
       ("target_shuttle_distance", RmVal.num (25/100)),
       ("max_turn_time", RmVal.num 30),
       ("min_run_time", RmVal.num 15),
       ("perfect_running_knee_angle", RmVal.num 125),
       ("perfect_turn_knee_angle", RmVal.num 110),
       ("symmetry_threshold", RmVal.num (85/100))]
  | _ => []

/-- `ExerciseAnalyzer.set_exercise_type` (lines 583–627). `now` models the
`time.time()` reading stored into `self.start_time`. -/
def set_exercise_type (s : AnalyzerState) (e : ExerciseType) (now : ℚ) :
    AnalyzerState :=
  let s := { s with exercise_type := some e,
                    reference_metrics := load_reference_metrics (some e),
                    start_time := some now }
  if e = ExerciseType.STANDING_BROAD_JUMP then
    { s with rep_phase := "calibrating",
             jump_distances := [], best_distance := 0,
             current_jump_distance := 0, jump_attempts := 0,
             baseline_established := false,
             calibration_frames := 0, calibration_positions := [] }
  else if e = ExerciseType.PLANK_HOLD then
    { s with rep_phase := "not_holding", plank_start_time := none }
  else if e = ExerciseType.SITUPS then
    { s with rep_phase := "at_bottom", prev_torso_angle := some 25 }
  else if e = ExerciseType.SHUTTLE_RUN then
    { s with rep_phase := "at_start",
             shuttle_runs := [], current_shuttle_distance := 0,
             shuttle_attempts := 0, direction_changes := 0,
             shuttle_start_time := none, shuttle_positions := [],
             current_direction := none, last_direction_change_pos := none,
             turn_start_time := none, running_start_pos := none,
             max_left_position := none, max_right_position := none,
             shuttle_run_times := [], last_run_start_time := none,
             total_shuttle_time := 0, average_shuttle_time := 0 }
  else
    { s with rep_phase := "at_top" }

/-- One squat-session frame at the phase-machine level: `detect_squat_phase`
followed by the `self.rep_phase = new_phase` assignment of `analyze_squats`
(lines 774–776). -/
def squatStep (s : AnalyzerState) (knee_angle : ℚ) : AnalyzerState :=
  let r := detect_squat_phase s knee_angle 0
  { r.2 with rep_phase := r.1 }

/-- A squat session fed a list of knee angles, at the phase-machine level. -/
def squatRun (s : AnalyzerState) (angles : List ℚ) : AnalyzerState :=
  angles.foldl squatStep s

/-- Python truthiness of an optional float (`None` and `0.0` are falsy), used
for the `hasattr(self, x) and self.x` patterns on time attributes. -/
def truthy (o : Option ℚ) : Bool :=
  o.getD 0 ≠ 0

/-- `xs[-k]` for a list known to have at least `k` elements. -/
def posFromEnd (l : List ℚ) (k : ℕ) : ℚ :=
  l.reverse.getD (k - 1) 0

/-- `ExerciseAnalyzer.detect_pushup_phase` (lines 214–237). -/
def detect_pushup_phase (s : AnalyzerState) (elbow_angle _shoulder_height : ℚ) :
    String × AnalyzerState :=
  let current_phase := s.rep_phase
  -- TOP_ELBOW_ANGLE = 160, BOTTOM_ELBOW_ANGLE = 90
  if elbow_angle > 160 then
    if current_phase = "going_up" then
      let s := { s with rep_count := s.rep_count + 1 }
      let rep_quality := calculate_rep_quality s
      ("at_top", { s with rep_quality_scores := s.rep_quality_scores ++ [rep_quality] })
    else
      ("at_top", s)
  else if elbow_angle < 90 then
    ("at_bottom", s)
  else if (current_phase = "at_top" ∨ current_phase = "going_up") ∧ elbow_angle < 150 then
    ("going_down", s)
  else if (current_phase = "at_bottom" ∨ current_phase = "going_down") ∧ elbow_angle > 100 then
    ("going_up", s)
  else
    (current_phase, s)

/-- `ExerciseAnalyzer.detect_situp_phase` (lines 239–266). -/
def detect_situp_phase (s : AnalyzerState)
    (torso_angle _shoulder_height _hip_height : ℚ) : String × AnalyzerState :=
  let current_phase := s.rep_phase
  -- DOWN_TORSO_ANGLE = 15, UP_TORSO_ANGLE = 60
  if torso_angle ≤ 15 then
    if current_phase = "going_down" then
      let s := { s with rep_count := s.rep_count + 1 }
      let rep_quality := calculate_rep_quality s
      ("at_bottom", { s with rep_quality_scores := s.rep_quality_scores ++ [rep_quality] })
    else
      ("at_bottom", s)
  else if torso_angle ≥ 60 then
    ("at_top", s)
  else if (current_phase = "at_bottom" ∨ current_phase = "going_up") ∧ torso_angle > 15 + 5 then
    ("going_up", s)
  else if (current_phase = "at_top" ∨ current_phase = "going_down") ∧ torso_angle < 60 - 5 then
    ("going_down", s)
  else
    (current_phase, s)

/-- `ExerciseAnalyzer.detect_jump_phase` (lines 178–212). -/
def detect_jump_phase (s : AnalyzerState)
    (hip_height knee_angle ankle_height : ℚ) : String × AnalyzerState :=
  let current_phase := s.rep_phase
  -- PREP_KNEE_ANGLE = 120, TAKEOFF_THRESHOLD = 0.85, LANDING_THRESHOLD = 0.95
  match s.baseline_hip_height with
  | none =>
      ("at_baseline", { s with baseline_hip_height := some hip_height,
                               baseline_ankle_height := some ankle_height })
  | some baseline =>
      let relative_height := hip_height / baseline
      if current_phase = "at_baseline" ∧ knee_angle < 120 then
        ("preparing", s)
      else if current_phase = "preparing" ∧ relative_height < 85/100 then
        ("takeoff", s)
      else if current_phase = "takeoff" ∧ relative_height < 7/10 then
        ("in_air", s)
      else if current_phase = "in_air" ∧ relative_height > 95/100 then
        let s := { s with rep_count := s.rep_count + 1 }
        let rep_quality := calculate_rep_quality s
        ("landing", { s with rep_quality_scores := s.rep_quality_scores ++ [rep_quality] })
      else if current_phase = "landing" ∧ knee_angle > 150 then
        ("at_baseline", s)
      else
        (current_phase, s)

/-- `ExerciseAnalyzer.track_jump_trajectory` (lines 553–567): returns the
value and the state with the mutated `jump_trajectory`. `foldr max 0` equals
Python's `max(...)` here because all mapped values are absolute values. -/
def track_jump_trajectory (s : AnalyzerState) (hip_x_position : ℚ) :
    ℚ × AnalyzerState :=
  let traj :=
    if s.rep_phase = "takeoff" ∨ s.rep_phase = "in_air" ∨ s.rep_phase = "landing"
    then s.jump_trajectory ++ [hip_x_position] else s.jump_trajectory
  if s.rep_phase = "completed" ∧ traj ≠ [] then
    let base := s.baseline_hip_x.getD 0
    ((traj.map fun pos => |pos - base|).foldr max 0, { s with jump_trajectory := [] })
  else
    (0, { s with jump_trajectory := traj })

/-- Calibration branch of `detect_broad_jump_phase` (lines 274–289). -/
def bjump_calibrate (s : AnalyzerState) (hip_x_position : ℚ) :
    String × AnalyzerState :=
  let s := { s with calibration_positions := s.calibration_positions ++ [hip_x_position],
                    calibration_frames := s.calibration_frames + 1 }
  if s.calibration_frames ≥ 30 then
    let mean := s.calibration_positions.sum / (s.calibration_positions.length : ℚ)
    ("at_baseline", { s with baseline_hip_x := some mean, baseline_established := true })
  else
    ("calibrating", s)

/-- Post-calibration branch of `detect_broad_jump_phase` (lines 291–383),
on the state already updated by `track_jump_trajectory`; `current_phase` is
the phase read before the update (line 272 — the update does not touch it). -/
def bjump_active (s : AnalyzerState) (current_phase : String)
    (hip_x_position knee_angle frame_width : ℚ) : String × AnalyzerState :=
    -- PREP_KNEE_ANGLE = 120; thresholds 2% / 5% of frame width;
    -- LANDING_STABILITY_FRAMES = 15
    let TAKEOFF_MOVEMENT_THRESHOLD := (2/100 : ℚ) * frame_width
    let SIGNIFICANT_MOVEMENT_THRESHOLD := (5/100 : ℚ) * frame_width
    let baseline := s.baseline_hip_x.getD 0
    let abs_displacement := |hip_x_position - baseline|
    if current_phase = "at_baseline" ∧ knee_angle < 120 then
      ("preparing", { s with jump_start_position := some hip_x_position })
    else if current_phase = "preparing" ∧ abs_displacement > TAKEOFF_MOVEMENT_THRESHOLD then
      ("takeoff", s)
    else if current_phase = "takeoff" ∧ abs_displacement > SIGNIFICANT_MOVEMENT_THRESHOLD then
      ("in_air", s)
    else if current_phase = "in_air" then
      let newMax : ℚ :=
        match s.max_displacement_this_jump with
        | none => abs_displacement
        | some m => max m abs_displacement
      let s := { s with max_displacement_this_jump := some newMax }
      if knee_angle < 150 ∧ abs_displacement > SIGNIFICANT_MOVEMENT_THRESHOLD then
        ("landing", { s with jump_landing_position := some hip_x_position,
                             landing_stability_counter := 0 })
      else
        (current_phase, s)
    else if current_phase = "landing" then
      let s := { s with landing_stability_counter := s.landing_stability_counter + 1 }
      let newFurthest : ℚ :=
        match s.furthest_position_this_jump with
        | none => hip_x_position
        | some f =>
            if |hip_x_position - baseline| > |f - baseline|
            then hip_x_position else f
      let s := { s with furthest_position_this_jump := some newFurthest }
      if s.landing_stability_counter ≥ 15 then
        -- `trajectory_distance = self.track_jump_trajectory(...)` (line 354):
        -- at this point `self.rep_phase` is still "landing", see C3.
        let r := track_jump_trajectory s hip_x_position
        let trajectory_distance := r.1
        let s := r.2
        let jump_distance_relative :=
          if trajectory_distance > 0 then
            (trajectory_distance / frame_width) * 100
          else
            match s.furthest_position_this_jump with
            | some f => (|f - baseline| / frame_width) * 100
            | none => 0
        let s := { s with current_jump_distance := jump_distance_relative,
                          jump_distances := s.jump_distances ++ [jump_distance_relative],
                          best_distance := max s.best_distance jump_distance_relative,
                          jump_attempts := s.jump_attempts + 1,
                          furthest_position_this_jump := none,
                          jump_start_position := none,
                          jump_landing_position := none }
        ("completed", s)
      else
        (current_phase, s)
    else if current_phase = "completed" ∧ knee_angle > 150 then
      ("at_baseline", s)
    else
      (current_phase, s)

/-- `ExerciseAnalyzer.detect_broad_jump_phase` (lines 268–383): calibration
until 30 frames are collected, otherwise the active phase machine on the
state whose `jump_trajectory` was just updated by `track_jump_trajectory`
(line 295 — the returned `max_trajectory_displacement` is never used, only
the trajectory mutation matters). -/
def detect_broad_jump_phase (s : AnalyzerState)
    (hip_x_position knee_angle _ankle_height frame_width : ℚ) :
    String × AnalyzerState :=
  let current_phase := s.rep_phase
  if ¬ s.baseline_established then
    bjump_calibrate s hip_x_position
  else
    bjump_active (track_jump_trajectory s hip_x_position).2 current_phase
      hip_x_position knee_angle frame_width

/-- `ExerciseAnalyzer.detect_plank_phase` (lines 385–402). `now` models the
`time.time()` reading stored into `self.plank_start_time`. -/
def detect_plank_phase (s : AnalyzerState)
    (shoulder_hip_ankle_angle elbow_angle _hold_time now : ℚ) :
    String × AnalyzerState :=
  -- GOOD_PLANK_ANGLE_MIN/MAX = 150/200, elbow window 60..130
  if 150 ≤ shoulder_hip_ankle_angle ∧ shoulder_hip_ankle_angle ≤ 200 ∧
     60 ≤ elbow_angle ∧ elbow_angle ≤ 130 then
    if s.rep_phase ≠ "holding" then
      ("holding", { s with plank_start_time := some now })
    else
      ("holding", s)
  else
    ("not_holding", s)

/-- Direction computation of `detect_shuttle_run_phase` (lines 429–462):
the movement-direction classification, the direction-change bookkeeping and
the `current_direction` update. Returns `(direction_changed, state)`. -/
def shuttle_direction_update (s : AnalyzerState)
    (hip_x_position movement_speed frame_width now : ℚ) :
    Bool × AnalyzerState :=
    let DIRECTION_CHANGE_THRESHOLD := rmNum s.reference_metrics "direction_change_threshold" * frame_width
    let SPEED_THRESHOLD := rmNum s.reference_metrics "speed_threshold" * frame_width
    let new_direction : Option String :=
      if movement_speed > SPEED_THRESHOLD then
        if s.shuttle_positions.length ≥ 2 then
          let position_change := hip_x_position - posFromEnd s.shuttle_positions 2
          if |position_change| > SPEED_THRESHOLD then
            if position_change > 0 then some "right" else some "left"
          else none
        else some "right"
      else some "stationary"
    let r : Bool × AnalyzerState :=
      if s.current_direction ≠ none ∧ s.current_direction ≠ new_direction ∧
         new_direction ≠ some "stationary" ∧ s.current_direction ≠ some "stationary" then
        if s.last_direction_change_pos = none ∨
           |hip_x_position - s.last_direction_change_pos.getD 0| > DIRECTION_CHANGE_THRESHOLD then
          let s := { s with direction_changes := s.direction_changes + 1,
                            last_direction_change_pos := some hip_x_position,
                            turn_start_time := some now }
          let s :=
            if truthy s.last_run_start_time then
              { s with shuttle_run_times := s.shuttle_run_times ++ [now - s.last_run_start_time.getD 0] }
            else s
          (true, s)
        else (false, s)
      else (false, s)
    let s := r.2
    let s := if new_direction ≠ some "stationary"
             then { s with current_direction := new_direction } else s
    (r.1, s)

/-- Phase machine of `detect_shuttle_run_phase` (lines 464–513), on the
state already updated by `shuttle_direction_update`. -/
def shuttle_phase_step (s : AnalyzerState) (current_phase : String)
    (direction_changed : Bool)
    (hip_x_position movement_speed frame_width now : ℚ) :
    String × AnalyzerState :=
    let SPEED_THRESHOLD := rmNum s.reference_metrics "speed_threshold" * frame_width
    let STATIONARY_THRESHOLD := rmNum s.reference_metrics "stationary_threshold" * frame_width
    if current_phase = "at_start" then
      if movement_speed > SPEED_THRESHOLD then
        ("running", { s with shuttle_start_time := some now,
                             last_run_start_time := some now,
                             running_start_pos := some hip_x_position })
      else ("at_start", s)
    else if current_phase = "running" then
      if direction_changed then ("turning", s)
      else if movement_speed < STATIONARY_THRESHOLD then ("turning", s)
      else ("running", s)
    else if current_phase = "turning" then
      if truthy s.turn_start_time then
        let turn_duration := now - s.turn_start_time.getD 0
        if movement_speed > SPEED_THRESHOLD ∧ turn_duration > 1/2 then
          ("running", { s with last_run_start_time := some now })
        else if turn_duration > 2 then
          ("completed", s)
        else ("turning", s)
      else ("turning", s)
    else if current_phase = "completed" then
      let total_distance := |s.max_right_position.getD 0 - s.max_left_position.getD 0|
      let dist := (total_distance / frame_width) * 100
      let s := { s with current_shuttle_distance := dist,
                        shuttle_runs := s.shuttle_runs ++ [dist],
                        shuttle_attempts := s.shuttle_attempts + 1,
                        shuttle_positions := [],
                        last_direction_change_pos := none,
                        max_left_position := some hip_x_position,
                        max_right_position := some hip_x_position }
      if movement_speed > SPEED_THRESHOLD then ("running", s) else ("at_start", s)
    else
      (current_phase, s)

/-- Established-baseline branch of `detect_shuttle_run_phase` (lines
418–513); `current_phase` is the phase read at line 405. The thresholds are
recomputed by each block from `reference_metrics`, which no block writes. -/
def shuttle_active (s : AnalyzerState) (current_phase : String)
    (hip_x_position movement_speed frame_width now : ℚ) :
    String × AnalyzerState :=
  let s : AnalyzerState := { s with
    max_left_position := some (min (s.max_left_position.getD hip_x_position) hip_x_position),
    max_right_position := some (max (s.max_right_position.getD hip_x_position) hip_x_position) }
  let r := shuttle_direction_update s hip_x_position movement_speed frame_width now
  shuttle_phase_step r.2 current_phase r.1 hip_x_position movement_speed
    frame_width now

/-- `ExerciseAnalyzer.detect_shuttle_run_phase` (lines 404–513): the first
frame establishes the baseline, every later frame runs the phase machine. -/
def detect_shuttle_run_phase (s : AnalyzerState)
    (hip_x_position _knee_angle movement_speed frame_width now : ℚ) :
    String × AnalyzerState :=
  let current_phase := s.rep_phase
  match s.shuttle_baseline_x with
  | none =>
      ("at_start", { s with shuttle_baseline_x := some hip_x_position,
                            max_left_position := some hip_x_position,
                            max_right_position := some hip_x_position,
                            current_direction := none })
  | some _ =>
      shuttle_active s current_phase hip_x_position movement_speed frame_width now

/-- `ExerciseAnalyzer.calculate_distance_score` (lines 515–538). -/
def calculate_distance_score (s : AnalyzerState) : ℚ :=
  if s.jump_distances = [] then 0
  else
    -- benchmarks 25 / 20 / 15 / 10 (% of frame width)
    let best_jump := s.best_distance
    if best_jump ≥ 25 then 95 + min 5 (best_jump - 25)
    else if best_jump ≥ 20 then 80 + 15 * (best_jump - 20) / (25 - 20)
    else if best_jump ≥ 15 then 60 + 20 * (best_jump - 15) / (20 - 15)
    else if best_jump ≥ 10 then 40 + 20 * (best_jump - 10) / (15 - 10)
    else max 20 (40 * (best_jump / 10))

/-- `ExerciseAnalyzer.get_distance_classification` (lines 540–551), label only
(the BGR display color is dropped). -/
def get_distance_classification (distance_percent : ℚ) : String :=
  if distance_percent ≥ 25 then "Excellent"
  else if distance_percent ≥ 20 then "Good"
  else if distance_percent ≥ 15 then "Fair"
  else if distance_percent ≥ 10 then "Poor"
  else "Very Poor"

/-- Accumulator for an analyzer's imperative rule evaluation: the growing
`feedback` list, the `is_correct` flag, and the `self.form_errors` tally.
Each Python rule block of an analyzer is modelled as one named function
`EvalAcc → EvalAcc` (or `EvalAcc → EvalAcc × AnalyzerState` where the block
also writes analyzer attributes), applied in source order. -/
structure EvalAcc where
  fb : List String
  ok : Bool
  fe : FormErrors

/-- The shared closing rule `if is_correct and not feedback: feedback.append(msg)`
of the analyzers (squats line 814, pushups 881, situps 1002, vertical jump
1120, broad jump 1245 — there via `len(feedback) == 0` — and shuttle 1464). -/
def default_positive (msg : String) (acc : EvalAcc) : EvalAcc :=
  if acc.ok ∧ acc.fb = [] then { acc with fb := acc.fb ++ [msg] } else acc

/-- Every string of the list is non-empty (used for analyzer feedback lists:
every `feedback.append` in the source appends a string with non-empty
literal content). -/
def FbNE (l : List String) : Prop := ∀ x ∈ l, x ≠ ""

/-- The mid-rep phases of the squat machine: the set of phases reachable
from `at_bottom` while the knee angle stays at or below the 160° top
threshold. -/
def SquatMidPhase (p : String) : Prop :=
  p = "at_bottom" ∨ p = "going_down" ∨ p = "going_up"

/-- Rendering of a Python `f"{x:.1f}"` segment. The exact digits are
irrelevant to every claim (these substrings only ever appear after a
non-empty literal prefix and contain no scoring keyword), so any rendering
of the number is adequate. -/
def pyFloatFmt (q : ℚ) : String :=
  toString q

/-- Squat depth/torso checks during `going_down`/`at_bottom`
(lines 779–794). -/
def squats_depth_torso_rules (ref : RefMetrics) (phase : String)
    (knee_angle torso_angle : ℚ) (acc : EvalAcc) : EvalAcc :=
  if phase = "going_down" ∨ phase = "at_bottom" then
    let acc :=
      if knee_angle < (rmPair ref "knee_angle_range").1 then
        { acc with fb := acc.fb ++ ["Going too deep! Control the descent."],
                   ok := false,
                   fe := { acc.fe with depth_issues := acc.fe.depth_issues + 1 } }
      else if knee_angle > 130 ∧ phase = "at_bottom" then
        { acc with fb := acc.fb ++ ["Go deeper! Aim for 90 degrees."],
                   ok := false,
                   fe := { acc.fe with depth_issues := acc.fe.depth_issues + 1 } }
      else acc
    if torso_angle < (rmPair ref "torso_angle_range").1 then
      { acc with fb := acc.fb ++ ["Chest up! Don\x27t lean forward too much."],
                 ok := false,
                 fe := { acc.fe with torso_lean := acc.fe.torso_lean + 1 } }
    else acc
  else acc

/-- Squat knee-alignment check outside `at_top` (lines 796–801). -/
def squats_alignment_rule (ref : RefMetrics) (phase : String)
    (alignment_score : ℚ) (acc : EvalAcc) : EvalAcc :=
  if alignment_score < rmNum ref "hip_knee_ankle_alignment" ∧ phase ≠ "at_top" then
    { acc with fb := acc.fb ++ ["Keep knees aligned with toes."],
               ok := false,
               fe := { acc.fe with knee_alignment := acc.fe.knee_alignment + 1 } }
  else acc

/-- Squat phase-transition feedback (lines 803–812). -/
def squats_phase_feedback (phase : String) (phase_changed : Bool)
    (acc : EvalAcc) : EvalAcc :=
  if phase_changed then
    if phase = "going_down" then
      { acc with fb := acc.fb ++ ["Descending... keep control!"] }
    else if phase = "at_bottom" then
      { acc with fb := acc.fb ++ ["Good depth! Now drive up!"] }
    else if phase = "going_up" then
      { acc with fb := acc.fb ++ ["Drive through your heels!"] }
    else if phase = "at_top" then
      { acc with fb := acc.fb ++ ["Rep complete! Great job!"] }
    else acc
  else acc

/-- Rule-evaluation core of `analyze_squats` (lines 772–824), parameterized
by the frame's computed geometric signals. -/
def squats_eval (s : AnalyzerState)
    (knee_angle torso_angle hip_height alignment_score : ℚ) :
    AnalyzerState × Bool × List String × Metrics :=
  let d := detect_squat_phase s knee_angle hip_height
  let new_phase := d.1
  let phase_changed := decide (new_phase ≠ d.2.rep_phase)
  let s : AnalyzerState := { d.2 with rep_phase := new_phase }
  let ref := s.reference_metrics
  let acc : EvalAcc :=
    default_positive "Excellent form! Keep going strong!"
      (squats_phase_feedback s.rep_phase phase_changed
        (squats_alignment_rule ref s.rep_phase alignment_score
          (squats_depth_torso_rules ref s.rep_phase knee_angle torso_angle
            { fb := [], ok := true, fe := s.form_errors })))
  let metrics : Metrics :=
    [("knee_angle", MVal.num knee_angle),
     ("torso_angle", MVal.num torso_angle),
     ("alignment_score", MVal.num alignment_score),
     ("phase", MVal.str s.rep_phase),
     ("knee_angle_deviation", MVal.num
        (if s.rep_phase = "at_bottom" ∨ s.rep_phase = "going_down"
         then |knee_angle - rmNum ref "perfect_knee_angle"| else 0)),
     ("torso_angle_deviation", MVal.num
        (if s.rep_phase = "at_bottom" ∨ s.rep_phase = "going_down"
         then |torso_angle - rmNum ref "perfect_torso_angle"| else 0))]
  ({ s with form_errors := acc.fe }, acc.ok, acc.fb, metrics)

/-- `ExerciseAnalyzer.analyze_squats` (lines 753–824): landmark extraction and
joint geometry (lines 758–771), then the rule-evaluation core. -/
def analyze_squats (g : Geom) (s : AnalyzerState) (lm : Landmarks) (h w : ℚ) :
    AnalyzerState × Bool × List String × Metrics :=
  let hip := (lm.left_hip.1 * w, lm.left_hip.2 * h)
  let knee := (lm.left_knee.1 * w, lm.left_knee.2 * h)
  let ankle := (lm.left_ankle.1 * w, lm.left_ankle.2 * h)
  let shoulder := (lm.left_shoulder.1 * w, lm.left_shoulder.2 * h)
  squats_eval s (g.angle hip knee ankle) (g.angle shoulder hip knee) hip.2
    (g.align hip knee ankle)

/-- Pushup depth checks during `going_down`/`at_bottom` (lines 852–861):
going deep is praised, not penalized. -/
def pushups_depth_rules (ref : RefMetrics) (phase : String)
    (elbow_angle : ℚ) (acc : EvalAcc) : EvalAcc :=
  if phase = "going_down" ∨ phase = "at_bottom" then
    if elbow_angle < (rmPair ref "elbow_angle_range").1 then
      { acc with fb := acc.fb ++ ["Great depth! Now push up!"] }
    else if elbow_angle > 130 ∧ phase = "at_bottom" then
      { acc with fb := acc.fb ++ ["Go lower! Get closer to the ground."],
                 ok := false,
                 fe := { acc.fe with depth_issues := acc.fe.depth_issues + 1 } }
    else acc
  else acc

/-- Pushup body-alignment check outside `at_top` (lines 863–868). -/
def pushups_alignment_rule (ref : RefMetrics) (phase : String)
    (alignment_score : ℚ) (acc : EvalAcc) : EvalAcc :=
  if alignment_score < rmNum ref "shoulder_hip_ankle_alignment" ∧ phase ≠ "at_top" then
    { acc with fb := acc.fb ++ ["Keep your body straight! Engage your core."],
               ok := false,
               fe := { acc.fe with body_alignment := acc.fe.body_alignment + 1 } }
  else acc

/-- Pushup phase-transition feedback (lines 870–879). -/
def pushups_phase_feedback (phase : String) (phase_changed : Bool)
    (acc : EvalAcc) : EvalAcc :=
  if phase_changed then
    if phase = "going_down" then
      { acc with fb := acc.fb ++ ["Descending... control the movement!"] }
    else if phase = "at_bottom" then
      { acc with fb := acc.fb ++ ["Good depth! Drive up!"] }
    else if phase = "going_up" then
      { acc with fb := acc.fb ++ ["Push through! Almost there!"] }
    else if phase = "at_top" then
      { acc with fb := acc.fb ++ ["Rep complete! Nice work!"] }
    else acc
  else acc

/-- Rule-evaluation core of `analyze_pushups` (lines 843–890), parameterized
by the frame's computed geometric signals. -/
def pushups_eval (s : AnalyzerState)
    (elbow_angle shoulder_height alignment_score : ℚ) :
    AnalyzerState × Bool × List String × Metrics :=
  let d := detect_pushup_phase s elbow_angle shoulder_height
  let new_phase := d.1
  let phase_changed := decide (new_phase ≠ d.2.rep_phase)
  let s : AnalyzerState := { d.2 with rep_phase := new_phase }
  let ref := s.reference_metrics
  let acc : EvalAcc :=
    default_positive "Perfect form! Keep it up!"
      (pushups_phase_feedback s.rep_phase phase_changed
        (pushups_alignment_rule ref s.rep_phase alignment_score
          (pushups_depth_rules ref s.rep_phase elbow_angle
            { fb := [], ok := true, fe := s.form_errors })))
  let metrics : Metrics :=
    [("elbow_angle", MVal.num elbow_angle),
     ("alignment_score", MVal.num alignment_score),
     ("phase", MVal.str s.rep_phase),
     ("elbow_angle_deviation", MVal.num
        (if s.rep_phase = "at_bottom" ∨ s.rep_phase = "going_down"
         then |elbow_angle - rmNum ref "perfect_elbow_angle"| else 0)),
     ("alignment_deviation", MVal.num
        (if s.rep_phase ≠ "at_top"
         then |alignment_score - rmNum ref "perfect_alignment"| else 0))]
  ({ s with form_errors := acc.fe }, acc.ok, acc.fb, metrics)

/-- `ExerciseAnalyzer.analyze_pushups` (lines 826–890): landmark extraction
and joint geometry (lines 831–845), then the rule-evaluation core. -/
def analyze_pushups (g : Geom) (s : AnalyzerState) (lm : Landmarks) (h w : ℚ) :
    AnalyzerState × Bool × List String × Metrics :=
  let shoulder := (lm.left_shoulder.1 * w, lm.left_shoulder.2 * h)
  let elbow := (lm.left_elbow.1 * w, lm.left_elbow.2 * h)
  let wrist := (lm.left_wrist.1 * w, lm.left_wrist.2 * h)
  let hip := (lm.left_hip.1 * w, lm.left_hip.2 * h)
  let ankle := (lm.left_ankle.1 * w, lm.left_ankle.2 * h)
  pushups_eval s (g.angle shoulder elbow wrist) shoulder.2 (g.align shoulder hip ankle)

/-- Sit-up form checks during `going_up`/`at_top` and `going_down`/`at_bottom`
(lines 948–980). -/
def situps_form_rules (ref : RefMetrics) (phase : String)
    (torso_angle knee_angle : ℚ) (acc : EvalAcc) : EvalAcc :=
  if phase = "going_up" ∨ phase = "at_top" then
    let acc :=
      if knee_angle < rmNumD ref "min_knee_bend" 50 then
        { acc with fb := acc.fb ++ ["Bend your knees more! Keep feet flat."],
                   ok := false,
                   fe := { acc.fe with knee_alignment := acc.fe.knee_alignment + 1 } }
      else if knee_angle > rmNumD ref "max_knee_bend" 140 then
        { acc with fb := acc.fb ++
                     ["Don\x27t bend knees too much - around 90 degrees is ideal."],
                   ok := false,
                   fe := { acc.fe with knee_alignment := acc.fe.knee_alignment + 1 } }
      else acc
    let up_range := rmPairD ref "up_torso_angle_range" (60, 90)
    if phase = "at_top" ∧ torso_angle < up_range.1 then
      { acc with fb := acc.fb ++ ["Come up higher! Get closer to your knees."],
                 ok := false,
                 fe := { acc.fe with depth_issues := acc.fe.depth_issues + 1 } }
    else if phase = "at_top" ∧ torso_angle > up_range.2 then
      { acc with fb := acc.fb ++ ["Don\x27t lean too far forward. Controlled movement!"],
                 ok := false,
                 fe := { acc.fe with torso_lean := acc.fe.torso_lean + 1 } }
    else acc
  else if phase = "going_down" ∨ phase = "at_bottom" then
    let down_range := rmPairD ref "down_torso_angle_range" (0, 40)
    if phase = "at_bottom" ∧ torso_angle > down_range.2 then
      { acc with fb := acc.fb ++ ["Go down further! Shoulders should touch the ground."],
                 ok := false,
                 fe := { acc.fe with depth_issues := acc.fe.depth_issues + 1 } }
    else if phase = "at_bottom" ∧ torso_angle < down_range.1 then
      -- "This is actually good form" — no flag flip
      { acc with fb := acc.fb ++ ["Perfect range of motion!"] }
    else acc
  else acc

/-- Sit-up spine-alignment check outside `at_bottom` (lines 982–988). -/
def situps_spine_rule (ref : RefMetrics) (phase : String)
    (spine_alignment : ℚ) (acc : EvalAcc) : EvalAcc :=
  if spine_alignment < rmNumD ref "spine_alignment_threshold" (40/100) ∧
     phase ≠ "at_bottom" then
    { acc with fb := acc.fb ++ ["Keep your spine straight! Don\x27t twist or curve."],
               ok := false,
               fe := { acc.fe with body_alignment := acc.fe.body_alignment + 1 } }
  else acc

/-- Sit-up phase-transition feedback (lines 990–999). -/
def situps_phase_feedback (phase : String) (phase_changed : Bool)
    (acc : EvalAcc) : EvalAcc :=
  if phase_changed then
    if phase = "going_up" then
      { acc with fb := acc.fb ++ ["Rising up... engage your core!"] }
    else if phase = "at_top" then
      { acc with fb := acc.fb ++ ["Good height! Now controlled descent."] }
    else if phase = "going_down" then
      { acc with fb := acc.fb ++ ["Controlled descent... don\x27t drop!"] }
    else if phase = "at_bottom" then
      { acc with fb := acc.fb ++ ["Rep complete! Great work!"] }
    else acc
  else acc

/-- Sit-up jerky-motion check against the previous frame's torso angle
(lines 1005–1012). -/
def situps_speed_rule (prev_torso_angle : Option ℚ) (torso_angle : ℚ)
    (acc : EvalAcc) : EvalAcc :=
  match prev_torso_angle with
  | some prev =>
      if |torso_angle - prev| > 20 then
        { acc with fb := acc.fb ++ ["Slow down! Control the movement."],
                   ok := false,
                   fe := { acc.fe with body_alignment := acc.fe.body_alignment + 1 } }
      else acc
  | none => acc

/-- Rule-evaluation core of `analyze_situps` (lines 943–1024), parameterized
by the frame's computed geometric signals. -/
def situps_eval (s : AnalyzerState)
    (torso_angle knee_angle shoulder_height hip_height spine_alignment : ℚ) :
    AnalyzerState × Bool × List String × Metrics :=
  let d := detect_situp_phase s torso_angle shoulder_height hip_height
  let new_phase := d.1
  let phase_changed := decide (new_phase ≠ d.2.rep_phase)
  let s : AnalyzerState := { d.2 with rep_phase := new_phase }
  let ref := s.reference_metrics
  let acc : EvalAcc :=
    situps_speed_rule s.prev_torso_angle torso_angle
      (default_positive "Excellent sit-up form! Keep it controlled!"
        (situps_phase_feedback s.rep_phase phase_changed
          (situps_spine_rule ref s.rep_phase spine_alignment
            (situps_form_rules ref s.rep_phase torso_angle knee_angle
              { fb := [], ok := true, fe := s.form_errors }))))
  let s := { s with prev_torso_angle := some torso_angle }
  let metrics : Metrics :=
    [("torso_angle", MVal.num torso_angle),
     ("knee_angle", MVal.num knee_angle),
     ("spine_alignment", MVal.num spine_alignment),
     ("shoulder_hip_diff", MVal.num (hip_height - shoulder_height)),
     ("phase", MVal.str s.rep_phase),
     ("torso_angle_deviation", MVal.num
        (if s.rep_phase = "at_top" then |torso_angle - rmNumD ref "perfect_up_angle" 80|
         else if s.rep_phase = "at_bottom" then |torso_angle - rmNumD ref "perfect_down_angle" 25|
         else 0)),
     ("knee_angle_deviation", MVal.num |knee_angle - rmNumD ref "perfect_knee_angle" 90|)]
  ({ s with form_errors := acc.fe }, acc.ok, acc.fb, metrics)

/-- `ExerciseAnalyzer.analyze_situps` (lines 892–1024): landmark extraction
and joint geometry (lines 901–941), then the rule-evaluation core. The dead
first assignment to `torso_angle` (line 915, unconditionally overwritten at
lines 925–937) is not modelled; the overwriting torso-vs-horizontal
computation is the abstract `g.torsoDeg shoulder hip`. -/
def analyze_situps (g : Geom) (s : AnalyzerState) (lm : Landmarks) (h w : ℚ) :
    AnalyzerState × Bool × List String × Metrics :=
  let shoulder := (lm.left_shoulder.1 * w, lm.left_shoulder.2 * h)
  let hip := (lm.left_hip.1 * w, lm.left_hip.2 * h)
  let knee := (lm.left_knee.1 * w, lm.left_knee.2 * h)
  let ankle := (lm.left_ankle.1 * w, lm.left_ankle.2 * h)
  situps_eval s (g.torsoDeg shoulder hip) (g.angle hip knee ankle) shoulder.2 hip.2
    (g.align shoulder hip (hip.1, hip.2 + 50))

/-- Vertical-jump preparation/landing form and symmetry checks
(lines 1060–1095). -/
def vjump_phase_rules (ref : RefMetrics) (phase : String)
    (left_knee_angle right_knee_angle avg_knee_angle : ℚ) (acc : EvalAcc) :
    EvalAcc :=
  if phase = "preparing" then
    let acc :=
      if avg_knee_angle < (rmPair ref "prep_knee_angle_range").1 then
        { acc with fb := acc.fb ++ ["Don\x27t squat too deep in preparation!"],
                   ok := false,
                   fe := { acc.fe with depth_issues := acc.fe.depth_issues + 1 } }
      else if avg_knee_angle > (rmPair ref "prep_knee_angle_range").2 then
        { acc with fb := acc.fb ++ ["Bend your knees more for better power!"],
                   ok := false,
                   fe := { acc.fe with takeoff_form := acc.fe.takeoff_form + 1 } }
      else acc
    if |left_knee_angle - right_knee_angle| > 15 then
      { acc with fb := acc.fb ++ ["Keep both legs symmetrical!"],
                 ok := false,
                 fe := { acc.fe with jump_asymmetry := acc.fe.jump_asymmetry + 1 } }
    else acc
  else if phase = "landing" then
    let acc :=
      if avg_knee_angle < (rmPair ref "landing_knee_angle_range").1 then
        { acc with fb := acc.fb ++ ["Bend your knees more on landing for safety!"],
                   ok := false,
                   fe := { acc.fe with landing_form := acc.fe.landing_form + 1 } }
      else if avg_knee_angle > (rmPair ref "landing_knee_angle_range").2 then
        { acc with fb := acc.fb ++ ["Don\x27t land too stiff! Absorb the impact!"],
                   ok := false,
                   fe := { acc.fe with landing_form := acc.fe.landing_form + 1 } }
      else acc
    if |left_knee_angle - right_knee_angle| > 20 then
      { acc with fb := acc.fb ++ ["Try to land evenly on both feet!"],
                 ok := false,
                 fe := { acc.fe with jump_asymmetry := acc.fe.jump_asymmetry + 1 } }
    else acc
  else acc

/-- Vertical-jump knee-alignment check outside `in_air` (lines 1097–1105). -/
def vjump_alignment_rule (ref : RefMetrics) (phase : String)
    (avg_alignment : ℚ) (acc : EvalAcc) : EvalAcc :=
  if avg_alignment < rmNum ref "hip_knee_ankle_alignment" ∧ phase ≠ "in_air" then
    { acc with fb := acc.fb ++ ["Keep your knees aligned with your toes!"],
               ok := false,
               fe := { acc.fe with knee_alignment := acc.fe.knee_alignment + 1 } }
  else acc

/-- Vertical-jump phase-transition feedback (lines 1107–1118). -/
def vjump_phase_feedback (phase : String) (phase_changed : Bool)
    (acc : EvalAcc) : EvalAcc :=
  if phase_changed then
    if phase = "preparing" then
      { acc with fb := acc.fb ++ ["Good preparation! Get ready to explode up!"] }
    else if phase = "takeoff" then
      { acc with fb := acc.fb ++ ["Drive up with power!"] }
    else if phase = "in_air" then
      { acc with fb := acc.fb ++ ["Great jump! Prepare for landing!"] }
    else if phase = "landing" then
      { acc with fb := acc.fb ++ ["Jump complete! Nice work!"] }
    else if phase = "at_baseline" then
      { acc with fb := acc.fb ++ ["Ready for next jump!"] }
    else acc
  else acc

/-- Rule-evaluation core of `analyze_vertical_jump` (lines 1053–1139),
parameterized by the frame's computed geometric signals. -/
def vjump_eval (s : AnalyzerState)
    (left_knee_angle right_knee_angle avg_hip_height avg_ankle_height
     left_alignment right_alignment : ℚ) :
    AnalyzerState × Bool × List String × Metrics :=
  let avg_knee_angle := (left_knee_angle + right_knee_angle) / 2
  let d := detect_jump_phase s avg_hip_height avg_knee_angle avg_ankle_height
  let new_phase := d.1
  let phase_changed := decide (new_phase ≠ d.2.rep_phase)
  let s : AnalyzerState := { d.2 with rep_phase := new_phase }
  let ref := s.reference_metrics
  let avg_alignment := (left_alignment + right_alignment) / 2
  let acc : EvalAcc :=
    default_positive "Perfect jump form!"
      (vjump_phase_feedback s.rep_phase phase_changed
        (vjump_alignment_rule ref s.rep_phase avg_alignment
          (vjump_phase_rules ref s.rep_phase left_knee_angle right_knee_angle
            avg_knee_angle { fb := [], ok := true, fe := s.form_errors })))
  let jump_height_relative : ℚ :=
    match s.baseline_hip_height with
    | some b => if b > 0 then max 0 ((b - avg_hip_height) / b * 100) else 0
    | none => 0
  let metrics : Metrics :=
    [("left_knee_angle", MVal.num left_knee_angle),
     ("right_knee_angle", MVal.num right_knee_angle),
     ("avg_knee_angle", MVal.num avg_knee_angle),
     ("left_alignment", MVal.num left_alignment),
     ("right_alignment", MVal.num right_alignment),
     ("avg_alignment", MVal.num avg_alignment),
     ("phase", MVal.str s.rep_phase),
     ("jump_height_relative", MVal.num jump_height_relative),
     ("knee_asymmetry", MVal.num |left_knee_angle - right_knee_angle|),
     ("knee_angle_deviation", MVal.num
        (if s.rep_phase = "preparing"
         then |avg_knee_angle - rmNumD ref "perfect_prep_knee_angle" 110|
         else if s.rep_phase = "landing"
         then |avg_knee_angle - rmNumD ref "perfect_landing_knee_angle" 120|
         else 0))]
  ({ s with form_errors := acc.fe }, acc.ok, acc.fb, metrics)

/-- `ExerciseAnalyzer.analyze_vertical_jump` (lines 1025–1139): landmark
extraction and joint geometry (lines 1030–1053, 1097–1099), then the
rule-evaluation core. -/
def analyze_vertical_jump (g : Geom) (s : AnalyzerState) (lm : Landmarks) (h w : ℚ) :
    AnalyzerState × Bool × List String × Metrics :=
  let left_hip := (lm.left_hip.1 * w, lm.left_hip.2 * h)
  let right_hip := (lm.right_hip.1 * w, lm.right_hip.2 * h)
  let left_knee := (lm.left_knee.1 * w, lm.left_knee.2 * h)
  let right_knee := (lm.right_knee.1 * w, lm.right_knee.2 * h)
  let left_ankle := (lm.left_ankle.1 * w, lm.left_ankle.2 * h)
  let right_ankle := (lm.right_ankle.1 * w, lm.right_ankle.2 * h)
  vjump_eval s (g.angle left_hip left_knee left_ankle)
    (g.angle right_hip right_knee right_ankle)
    ((left_hip.2 + right_hip.2) / 2) ((left_ankle.2 + right_ankle.2) / 2)
    (g.align left_hip left_knee left_ankle) (g.align right_hip right_knee right_ankle)

set_option maxHeartbeats 2000000 in
/-- Broad-jump phase-specific feedback and form checks (lines 1174–1233).
`jump_attempts`/`current_jump_distance`/`best_distance` are read from the
post-detection state. -/
def bjump_phase_rules (ref : RefMetrics) (phase : String)
    (left_knee_angle right_knee_angle avg_knee_angle lh1 rh1 w
     current_jump_distance best_distance : ℚ) (jump_attempts : ℕ)
    (acc : EvalAcc) : EvalAcc :=
  if phase = "calibrating" then
    { acc with fb := acc.fb ++ ["Establishing baseline position... Stay still!"] }
  else if phase = "preparing" then
    let acc :=
      if avg_knee_angle < (rmPair ref "prep_knee_angle_range").1 then
        { acc with fb := acc.fb ++ ["Don\x27t squat too deep! Focus on explosive power."],
                   ok := false,
                   fe := { acc.fe with depth_issues := acc.fe.depth_issues + 1 } }
      else if avg_knee_angle > (rmPair ref "prep_knee_angle_range").2 then
        { acc with fb := acc.fb ++ ["Bend your knees more for maximum power!"],
                   ok := false,
                   fe := { acc.fe with takeoff_form := acc.fe.takeoff_form + 1 } }
      else
        { acc with fb := acc.fb ++ ["Good preparation! Get ready to explode forward!"] }
    if |left_knee_angle - right_knee_angle| > 15 then
      { acc with fb := acc.fb ++ ["Keep both legs symmetrical for balanced takeoff!"],
                 ok := false,
                 fe := { acc.fe with jump_asymmetry := acc.fe.jump_asymmetry + 1 } }
    else acc
  else if phase = "takeoff" then
    { acc with fb := acc.fb ++ ["Drive forward with maximum power!"] }
  else if phase = "in_air" then
    { acc with fb := acc.fb ++ ["Great jump! Prepare for safe landing!"] }
  else if phase = "landing" then
    let acc :=
      if avg_knee_angle < (rmPair ref "landing_knee_angle_range").1 then
        { acc with fb := acc.fb ++ ["Bend your knees more on landing to absorb impact!"],
                   ok := false,
                   fe := { acc.fe with landing_form := acc.fe.landing_form + 1 } }
      else if avg_knee_angle > (rmPair ref "landing_knee_angle_range").2 then
        { acc with fb := acc.fb ++ ["Don\x27t land too stiff! Absorb the landing!"],
                   ok := false,
                   fe := { acc.fe with landing_form := acc.fe.landing_form + 1 } }
      else
        { acc with fb := acc.fb ++ ["Good landing form! Absorbing the impact well."] }
    let hip_sway := |lh1 - rh1| / w
    if hip_sway > rmNum ref "max_landing_sway" then
      { acc with fb := acc.fb ++ ["Try to land more balanced and stable!"],
                 ok := false,
                 fe := { acc.fe with landing_form := acc.fe.landing_form + 1 } }
    else acc
  else if phase = "completed" then
    let distance_class := get_distance_classification current_jump_distance
    { acc with fb := acc.fb ++
        ["Jump complete! Distance: " ++ distance_class ++ " (" ++
         pyFloatFmt current_jump_distance ++ "%)"] }
  else if phase = "at_baseline" then
    if 0 < jump_attempts then
      { acc with fb := acc.fb ++
          ["Ready for next jump! Best so far: " ++ pyFloatFmt best_distance ++ "%"] }
    else
      { acc with fb := acc.fb ++ ["Ready to jump! Take your time to prepare."] }
  else acc

/-- Broad-jump knee-alignment check outside `in_air`/`calibrating`
(lines 1235–1243). -/
def bjump_alignment_rule (ref : RefMetrics) (phase : String)
    (avg_alignment : ℚ) (acc : EvalAcc) : EvalAcc :=
  if avg_alignment < rmNum ref "hip_knee_ankle_alignment" ∧
     phase ≠ "in_air" ∧ phase ≠ "calibrating" then
    { acc with fb := acc.fb ++ ["Keep your knees aligned with your toes!"],
               ok := false,
               fe := { acc.fe with knee_alignment := acc.fe.knee_alignment + 1 } }
  else acc

/-- Rule-evaluation core of `analyze_standing_broad_jump` (lines 1169–1270),
parameterized by the frame's computed geometric signals. `lh1`/`rh1` are the
scaled left/right hip x coordinates (for the landing hip-sway check). -/
def bjump_eval (s : AnalyzerState)
    (left_knee_angle right_knee_angle avg_hip_x avg_ankle_height
     left_alignment right_alignment lh1 rh1 w : ℚ) :
    AnalyzerState × Bool × List String × Metrics :=
  let avg_knee_angle := (left_knee_angle + right_knee_angle) / 2
  let d := detect_broad_jump_phase s avg_hip_x avg_knee_angle avg_ankle_height w
  let new_phase := d.1
  let phase_changed := decide (new_phase ≠ d.2.rep_phase)
  let _ := phase_changed   -- computed but never used in this analyzer
  let s : AnalyzerState := { d.2 with rep_phase := new_phase }
  let ref := s.reference_metrics
  let avg_alignment := (left_alignment + right_alignment) / 2
  let acc : EvalAcc :=
    default_positive "Good form!"
      (bjump_alignment_rule ref s.rep_phase avg_alignment
        (bjump_phase_rules ref s.rep_phase left_knee_angle right_knee_angle
          avg_knee_angle lh1 rh1 w s.current_jump_distance s.best_distance
          s.jump_attempts { fb := [], ok := true, fe := s.form_errors }))
  let horizontal_displacement : ℚ :=
    match s.baseline_hip_x with
    | some b => |avg_hip_x - b| / w * 100
    | none => 0
  let metrics : Metrics :=
    [("left_knee_angle", MVal.num left_knee_angle),
     ("right_knee_angle", MVal.num right_knee_angle),
     ("avg_knee_angle", MVal.num avg_knee_angle),
     ("left_alignment", MVal.num left_alignment),
     ("right_alignment", MVal.num right_alignment),
     ("avg_alignment", MVal.num avg_alignment),
     ("phase", MVal.str s.rep_phase),
     ("current_displacement", MVal.num horizontal_displacement),
     ("current_jump_distance", MVal.num s.current_jump_distance),
     ("best_distance", MVal.num s.best_distance),
     ("attempts", MVal.num (s.jump_attempts : ℚ)),
     ("knee_asymmetry", MVal.num |left_knee_angle - right_knee_angle|),
     ("knee_angle_deviation", MVal.num
        (if s.rep_phase = "preparing"
         then |avg_knee_angle - rmNumD ref "perfect_prep_knee_angle" 110|
         else if s.rep_phase = "landing"
         then |avg_knee_angle - rmNumD ref "perfect_landing_knee_angle" 120|
         else 0))]
  ({ s with form_errors := acc.fe }, acc.ok, acc.fb, metrics)

/-- `ExerciseAnalyzer.analyze_standing_broad_jump` (lines 1141–1270):
landmark extraction and joint geometry (lines 1146–1167, 1236–1237), then
the rule-evaluation core. -/
def analyze_standing_broad_jump (g : Geom) (s : AnalyzerState) (lm : Landmarks)
    (h w : ℚ) : AnalyzerState × Bool × List String × Metrics :=
  let left_hip := (lm.left_hip.1 * w, lm.left_hip.2 * h)
  let right_hip := (lm.right_hip.1 * w, lm.right_hip.2 * h)
  let left_knee := (lm.left_knee.1 * w, lm.left_knee.2 * h)
  let right_knee := (lm.right_knee.1 * w, lm.right_knee.2 * h)
  let left_ankle := (lm.left_ankle.1 * w, lm.left_ankle.2 * h)
  let right_ankle := (lm.right_ankle.1 * w, lm.right_ankle.2 * h)
  bjump_eval s (g.angle left_hip left_knee left_ankle)
    (g.angle right_hip right_knee right_ankle)
    ((left_hip.1 + right_hip.1) / 2) ((left_ankle.2 + right_ankle.2) / 2)
    (g.align left_hip left_knee left_ankle) (g.align right_hip right_knee right_ankle)
    left_hip.1 right_hip.1 w

set_option maxHeartbeats 2000000 in
/-- Plank body-line checks (lines 1325–1332). -/
def plank_body_rules (body_alignment_angle : ℚ) (acc : EvalAcc) : EvalAcc :=
  if body_alignment_angle < 150 then
    { acc with fb := acc.fb ++ ["Keep your body straight! Don\x27t let hips sag."],
               ok := false,
               fe := { acc.fe with body_alignment := acc.fe.body_alignment + 1 } }
  else if body_alignment_angle > 200 then
    { acc with fb := acc.fb ++ ["Don\x27t pike up! Keep body in straight line."],
               ok := false,
               fe := { acc.fe with body_alignment := acc.fe.body_alignment + 1 } }
  else acc

/-- Plank elbow checks (lines 1334–1341). -/
def plank_elbow_rules (avg_elbow_angle : ℚ) (acc : EvalAcc) : EvalAcc :=
  if avg_elbow_angle < 60 then
    { acc with fb := acc.fb ++ ["Keep elbows at 90 degrees!"],
               ok := false,
               fe := { acc.fe with elbow_position := acc.fe.elbow_position + 1 } }
  else if avg_elbow_angle > 130 then
    { acc with fb := acc.fb ++ ["Don\x27t lock elbows! Keep 90-degree bend."],
               ok := false,
               fe := { acc.fe with elbow_position := acc.fe.elbow_position + 1 } }
  else acc

/-- Plank phase feedback: during `not_holding` the evaluator also clears
`self.plank_start_time` (lines 1343–1351). -/
def plank_hold_feedback (s : AnalyzerState) (hold_duration : ℚ)
    (acc : EvalAcc) : EvalAcc × AnalyzerState :=
  if s.rep_phase = "holding" then
    if hold_duration > 0 then
      ({ acc with fb := acc.fb ++
           ["Good hold! Duration: " ++ pyFloatFmt hold_duration ++ "s"] }, s)
    else
      ({ acc with fb := acc.fb ++ ["Hold the position! Keep core engaged!"] }, s)
  else if s.rep_phase = "not_holding" then
    ({ acc with fb := acc.fb ++ ["Get into plank position. Keep body straight!"] },
     { s with plank_start_time := none })
  else (acc, s)

/-- Plank closing encouragement outside `holding` (lines 1353–1354). -/
def plank_final_rule (phase : String) (acc : EvalAcc) : EvalAcc :=
  if acc.ok ∧ phase ≠ "holding" then
    { acc with fb := acc.fb ++ ["Perfect form! Now hold the position!"] }
  else acc

/-- Rule-evaluation core of `analyze_plank_hold` (lines 1312–1363),
parameterized by the frame's computed geometric signals. -/
def plank_eval (s : AnalyzerState)
    (body_alignment_angle avg_elbow_angle now : ℚ) :
    AnalyzerState × Bool × List String × Metrics :=
  -- hold duration is computed from the pre-frame plank_start_time
  let hold_duration : ℚ :=
    if truthy s.plank_start_time then now - s.plank_start_time.getD 0 else 0
  let d := detect_plank_phase s body_alignment_angle avg_elbow_angle hold_duration now
  let new_phase := d.1
  let phase_changed := decide (new_phase ≠ d.2.rep_phase)
  let _ := phase_changed   -- computed but never used in this analyzer
  let s : AnalyzerState := { d.2 with rep_phase := new_phase }
  let r : EvalAcc × AnalyzerState :=
    plank_hold_feedback s hold_duration
      (plank_elbow_rules avg_elbow_angle
        (plank_body_rules body_alignment_angle
          { fb := [], ok := true, fe := s.form_errors }))
  let acc := r.1
  let s := r.2
  let acc : EvalAcc := plank_final_rule s.rep_phase acc
  let metrics : Metrics :=
    [("body_alignment_angle", MVal.num body_alignment_angle),
     ("avg_elbow_angle", MVal.num avg_elbow_angle),
     ("hold_duration", MVal.num hold_duration),
     ("phase", MVal.str s.rep_phase),
     ("alignment_deviation", MVal.num
        (if s.rep_phase = "holding" then |body_alignment_angle - 180| else 0)),
     ("elbow_deviation", MVal.num
        (if s.rep_phase = "holding" then |avg_elbow_angle - 90| else 0))]
  ({ s with form_errors := acc.fe }, acc.ok, acc.fb, metrics)

/-- `ExerciseAnalyzer.analyze_plank_hold` (lines 1273–1363): landmark
extraction and joint geometry (lines 1279–1310), then the rule-evaluation
core. -/
def analyze_plank_hold (g : Geom) (s : AnalyzerState) (lm : Landmarks)
    (h w now : ℚ) : AnalyzerState × Bool × List String × Metrics :=
  let left_shoulder := (lm.left_shoulder.1 * w, lm.left_shoulder.2 * h)
  let right_shoulder := (lm.right_shoulder.1 * w, lm.right_shoulder.2 * h)
  let left_elbow := (lm.left_elbow.1 * w, lm.left_elbow.2 * h)
  let right_elbow := (lm.right_elbow.1 * w, lm.right_elbow.2 * h)
  let left_hip := (lm.left_hip.1 * w, lm.left_hip.2 * h)
  let right_hip := (lm.right_hip.1 * w, lm.right_hip.2 * h)
  let left_ankle := (lm.left_ankle.1 * w, lm.left_ankle.2 * h)
  let right_ankle := (lm.right_ankle.1 * w, lm.right_ankle.2 * h)
  let left_wrist := (lm.left_wrist.1 * w, lm.left_wrist.2 * h)
  let right_wrist := (lm.right_wrist.1 * w, lm.right_wrist.2 * h)
  let avg_shoulder := ((left_shoulder.1 + right_shoulder.1) / 2,
                       (left_shoulder.2 + right_shoulder.2) / 2)
  let avg_hip := ((left_hip.1 + right_hip.1) / 2, (left_hip.2 + right_hip.2) / 2)
  let avg_ankle := ((left_ankle.1 + right_ankle.1) / 2, (left_ankle.2 + right_ankle.2) / 2)
  plank_eval s (g.angle avg_shoulder avg_hip avg_ankle)
    ((g.angle left_shoulder left_elbow left_wrist +
      g.angle right_shoulder right_elbow right_wrist) / 2) now

/-- Shuttle-run phase-specific form feedback (lines 1405–1438). -/
def shuttle_phase_rules (ref : RefMetrics) (phase : String)
    (avg_knee_angle current_shuttle_distance : ℚ) (acc : EvalAcc) : EvalAcc :=
  if phase = "running" then
    if avg_knee_angle < (rmPair ref "running_knee_angle_range").1 then
      { acc with fb := acc.fb ++ ["Lift your knees higher while running!"],
                 ok := false,
                 fe := { acc.fe with knee_alignment := acc.fe.knee_alignment + 1 } }
    else if avg_knee_angle > (rmPair ref "running_knee_angle_range").2 then
      { acc with fb := acc.fb ++ ["Don\x27t overstride! Keep knees under control."],
                 ok := false,
                 fe := { acc.fe with knee_alignment := acc.fe.knee_alignment + 1 } }
    else
      { acc with fb := acc.fb ++ ["Good running form! Keep the pace up!"] }
  else if phase = "turning" then
    if avg_knee_angle < (rmPair ref "turn_knee_angle_range").1 then
      { acc with fb := acc.fb ++ ["Bend knees more during turns for stability!"],
                 ok := false,
                 fe := { acc.fe with depth_issues := acc.fe.depth_issues + 1 } }
    else if avg_knee_angle > (rmPair ref "turn_knee_angle_range").2 then
      { acc with fb := acc.fb ++ ["Lower your center of gravity in turns!"],
                 ok := false,
                 fe := { acc.fe with depth_issues := acc.fe.depth_issues + 1 } }
    else
      { acc with fb := acc.fb ++ ["Good turning technique! Quick direction change!"] }
  else if phase = "at_start" then
    { acc with fb := acc.fb ++ ["Ready to start shuttle run! Sprint to one side!"] }
  else if phase = "completed" then
    { acc with fb := acc.fb ++
        ["Shuttle run complete! Distance: " ++ pyFloatFmt current_shuttle_distance ++ "%"] }
  else acc

/-- Shuttle-run leg-symmetry check while running (lines 1440–1445). -/
def shuttle_symmetry_rule (phase : String) (knee_asymmetry : ℚ)
    (acc : EvalAcc) : EvalAcc :=
  if knee_asymmetry > 20 ∧ phase = "running" then
    { acc with fb := acc.fb ++ ["Keep both legs working equally!"],
               ok := false,
               fe := { acc.fe with jump_asymmetry := acc.fe.jump_asymmetry + 1 } }
  else acc

/-- Shuttle-run alignment check (lines 1447–1455). -/
def shuttle_alignment_rule (ref : RefMetrics) (avg_alignment : ℚ)
    (acc : EvalAcc) : EvalAcc :=
  if avg_alignment < rmNum ref "hip_knee_ankle_alignment" then
    { acc with fb := acc.fb ++ ["Keep knees aligned with your direction of movement!"],
               ok := false,
               fe := { acc.fe with knee_alignment := acc.fe.knee_alignment + 1 } }
  else acc

/-- Shuttle-run phase-transition feedback (lines 1457–1462). -/
def shuttle_phase_changed_feedback (phase : String) (phase_changed : Bool)
    (acc : EvalAcc) : EvalAcc :=
  if phase_changed then
    if phase = "running" then
      { acc with fb := acc.fb ++ ["Sprinting! Drive with your arms!"] }
    else if phase = "turning" then
      { acc with fb := acc.fb ++ ["Quick turn! Plant and pivot!"] }
    else acc
  else acc

/-- Rule-evaluation core of `analyze_shuttle_run` (lines 1390–1491),
parameterized by the frame's computed geometric signals. -/
def shuttle_eval (s : AnalyzerState)
    (left_knee_angle right_knee_angle avg_hip_x left_alignment right_alignment
     w now : ℚ) : AnalyzerState × Bool × List String × Metrics :=
  let avg_knee_angle := (left_knee_angle + right_knee_angle) / 2
  -- position history: append, keep last 10
  let ps := s.shuttle_positions ++ [avg_hip_x]
  let ps := if ps.length > 10 then ps.tail else ps
  let s : AnalyzerState := { s with shuttle_positions := ps }
  let movement_speed : ℚ :=
    if ps.length ≥ 3 then |posFromEnd ps 1 - posFromEnd ps 3| / 2 else 0
  let d := detect_shuttle_run_phase s avg_hip_x avg_knee_angle movement_speed w now
  let new_phase := d.1
  let phase_changed := decide (new_phase ≠ d.2.rep_phase)
  let s : AnalyzerState := { d.2 with rep_phase := new_phase }
  let ref := s.reference_metrics
  let acc : EvalAcc :=
    default_positive "Excellent shuttle run form!"
      (shuttle_phase_changed_feedback s.rep_phase phase_changed
        (shuttle_alignment_rule ref ((left_alignment + right_alignment) / 2)
          (shuttle_symmetry_rule s.rep_phase |left_knee_angle - right_knee_angle|
            (shuttle_phase_rules ref s.rep_phase avg_knee_angle
              s.current_shuttle_distance
              { fb := [], ok := true, fe := s.form_errors }))))
  let knee_asymmetry := |left_knee_angle - right_knee_angle|
  let avg_alignment := (left_alignment + right_alignment) / 2
  -- total distance covered (max attrs always exist; set by detect on 1st frame)
  let total_distance : ℚ :=
    |s.max_right_position.getD 0 - s.max_left_position.getD 0| / w * 100
  let metrics : Metrics :=
    [("left_knee_angle", MVal.num left_knee_angle),
     ("right_knee_angle", MVal.num right_knee_angle),
     ("avg_knee_angle", MVal.num avg_knee_angle),
     ("left_alignment", MVal.num left_alignment),
     ("right_alignment", MVal.num right_alignment),
     ("avg_alignment", MVal.num avg_alignment),
     ("phase", MVal.str s.rep_phase),
     ("movement_speed", MVal.num movement_speed),
     ("direction_changes", MVal.num (s.direction_changes : ℚ)),
     ("total_distance", MVal.num total_distance),
     ("current_direction", MVal.str (s.current_direction.getD "none")),
     ("knee_asymmetry", MVal.num knee_asymmetry),
     ("knee_angle_deviation", MVal.num
        (if s.rep_phase = "running"
         then |avg_knee_angle - rmNumD ref "perfect_running_knee_angle" 125|
         else if s.rep_phase = "turning"
         then |avg_knee_angle - rmNumD ref "perfect_turn_knee_angle" 110|
         else 0)),
     ("average_run_time", MVal.num
        (if s.shuttle_run_times ≠ []
         then s.shuttle_run_times.sum / (s.shuttle_run_times.length : ℚ) else 0)),
     ("total_runs", MVal.num (s.shuttle_run_times.length : ℚ)),
     ("current_run_time", MVal.num
        (if truthy s.last_run_start_time
         then now - s.last_run_start_time.getD 0 else 0))]
  ({ s with form_errors := acc.fe }, acc.ok, acc.fb, metrics)

/-- `ExerciseAnalyzer.analyze_shuttle_run` (lines 1365–1491): landmark
extraction and joint geometry (lines 1370–1388, 1448–1449), then the
rule-evaluation core. -/
def analyze_shuttle_run (g : Geom) (s : AnalyzerState) (lm : Landmarks)
    (h w now : ℚ) : AnalyzerState × Bool × List String × Metrics :=
  let left_hip := (lm.left_hip.1 * w, lm.left_hip.2 * h)
  let right_hip := (lm.right_hip.1 * w, lm.right_hip.2 * h)
  let left_knee := (lm.left_knee.1 * w, lm.left_knee.2 * h)
  let right_knee := (lm.right_knee.1 * w, lm.right_knee.2 * h)
  let left_ankle := (lm.left_ankle.1 * w, lm.left_ankle.2 * h)
  let right_ankle := (lm.right_ankle.1 * w, lm.right_ankle.2 * h)
  shuttle_eval s (g.angle left_hip left_knee left_ankle)
    (g.angle right_hip right_knee right_ankle)
    ((left_hip.1 + right_hip.1) / 2)
    (g.align left_hip left_knee left_ankle) (g.align right_hip right_knee right_ankle)
    w now

/-- The positive deviation samples collected by `calculate_overall_score`
(lines 1526–1534): for every non-empty metrics record, every numeric field
whose key contains "deviation" and whose value is `> 0`, capped at 45.
(A string value under a deviation key never occurs; every analyzer writes
deviation fields numerically.) -/
def deviationVals (hist : List Metrics) : List ℚ :=
  (hist.map fun m =>
    if m = [] then []
    else m.filterMap fun kv =>
      match kv.2 with
      | MVal.num v => if substrOf "deviation" kv.1 ∧ v > 0 then some (min v 45) else none
      | MVal.str _ => none).flatten

/-- `form_accuracy` of `calculate_overall_score` (lines 1518–1520), as a
fraction in [0,1]. -/
def form_accuracy_frac (s : AnalyzerState) : ℚ :=
  let correct_frames :=
    (s.feedback_history.filter fun fb => hasPositive scorePositives fb).length
  let total_frames := s.feedback_history.length
  if 0 < total_frames then (correct_frames : ℚ) / (total_frames : ℚ) else 0

/-- `rep_quality_avg` of `calculate_overall_score` (line 1523). -/
def rep_quality_avg (s : AnalyzerState) : ℚ :=
  if s.rep_quality_scores ≠ [] then
    s.rep_quality_scores.sum / (s.rep_quality_scores.length : ℚ)
  else 50

/-- `ExerciseAnalyzer.calculate_overall_score` (lines 1508–1552). -/
def calculate_overall_score (s : AnalyzerState) : ℚ :=
  if s.exercise_type = some ExerciseType.STANDING_BROAD_JUMP then
    calculate_distance_score s
  else if s.metrics_history = [] then
    50   -- "Base score instead of 0"
  else
    let form_accuracy := form_accuracy_frac s
    let rq_avg := rep_quality_avg s
    let devs := deviationVals s.metrics_history
    let avg_deviation : ℚ := if 0 < devs.length then devs.sum / (devs.length : ℚ) else 0
    let deviation_score := max 0 (1 - avg_deviation / 45)
    let overall_score := 60 + form_accuracy * 25 + (rq_avg / 100) * 10 + deviation_score * 5
    let overall_score :=
      if 0 < s.rep_count then overall_score + min ((s.rep_count : ℚ) * 2) 10
      else overall_score
    min 100 (max 30 overall_score)

/-- The composite-score formula in the spec's own shape, with the deviation
average taken over the positive deviation samples only (the amended reading
of claim C2, matching the code's `value > 0` filter). -/
def spec_composite_score (s : AnalyzerState) : ℚ :=
  let devs := deviationVals s.metrics_history
  let avg_dev : ℚ := if 0 < devs.length then devs.sum / (devs.length : ℚ) else 0
  let deviation_score := max 0 (1 - avg_dev / 45)
  min 100 (max 30
    (60 + 25 * form_accuracy_frac s + (1/10) * rep_quality_avg s +
     5 * deviation_score + min (2 * (s.rep_count : ℚ)) 10))

/-- All deviation samples, zero-valued fields included: the deviation
average that claim C2 literally describes ("averaged over all recorded
'*_deviation' metric fields of all frames"), each capped at 45. -/
def deviationValsAll (hist : List Metrics) : List ℚ :=
  (hist.map fun m =>
    m.filterMap fun kv =>
      match kv.2 with
      | MVal.num v => if substrOf "deviation" kv.1 then some (min v 45) else none
      | MVal.str _ => none).flatten

/-- The composite score exactly as claim C2 states it: deviation score
`1 − avg(min(deviation,45))/45` averaged over ALL recorded deviation fields. -/
def spec_claimed_composite_score (s : AnalyzerState) : ℚ :=
  let devs := deviationValsAll s.metrics_history
  let avg_dev : ℚ := if 0 < devs.length then devs.sum / (devs.length : ℚ) else 0
  let deviation_score := 1 - avg_dev / 45
  min 100 (max 30
    (60 + 25 * form_accuracy_frac s + (1/10) * rep_quality_avg s +
     5 * deviation_score + min (2 * (s.rep_count : ℚ)) 10))

/-- The tail of each `process_frame` analyzer branch (lines 1573–1601):
`feedback_text = " | ".join(feedback_list) if feedback_list else "Good form!"`,
`self.is_correct_form` assignment, and the two history appends. -/
def finishFrame (r : AnalyzerState × Bool × List String × Metrics) :
    AnalyzerState × String × Metrics :=
  let fbText := if r.2.2.1 = [] then "Good form!" else joinBar r.2.2.1
  let s := r.1
  let s := { s with is_correct_form := r.2.1,
                    feedback_history := s.feedback_history ++ [fbText],
                    metrics_history := s.metrics_history ++ [r.2.2.2] }
  (s, fbText, r.2.2.2)

/-- `ExerciseAnalyzer.process_frame` (lines 1554–1721), minus the cv2 drawing
(pure display). `det` is the pose-detector outcome for the frame: `none` when
`results.pose_landmarks` is falsy. With landmarks present but no matching
exercise branch (unset exercise or ENDURANCE_RUN), the source leaves
`feedback_text = ""` and `metrics = {}` and still appends both. -/
def process_frame (g : Geom) (s : AnalyzerState) (det : Option Landmarks)
    (h w now : ℚ) : AnalyzerState × String × Metrics :=
  match det with
  | none => (s, "", [])
  | some lm =>
    match s.exercise_type with
    | some ExerciseType.SQUATS => finishFrame (analyze_squats g s lm h w)
    | some ExerciseType.PUSHUPS => finishFrame (analyze_pushups g s lm h w)
    | some ExerciseType.SITUPS => finishFrame (analyze_situps g s lm h w)
    | some ExerciseType.VERTICAL_JUMP => finishFrame (analyze_vertical_jump g s lm h w)
    | some ExerciseType.STANDING_BROAD_JUMP =>
        finishFrame (analyze_standing_broad_jump g s lm h w)
    | some ExerciseType.PLANK_HOLD => finishFrame (analyze_plank_hold g s lm h w now)
    | some ExerciseType.SHUTTLE_RUN => finishFrame (analyze_shuttle_run g s lm h w now)
    | _ =>
        ({ s with feedback_history := s.feedback_history ++ [""],
                  metrics_history := s.metrics_history ++ [[]] }, "", [])

/-- The deterministic, state-derived core of the report payload built by
`generate_comprehensive_report` (lines 1923–2046): everything except the
external narrative summaries, file paths and database record. `date` models
the `datetime.now()` stamp as the clock value. -/
structure ReportData where
  duration : ℚ
  date : ℚ
  overall_score : ℚ
  form_accuracy : ℚ
  grade : String
  rep_count : ℕ
  total_frames : ℕ
  correct_frames : ℕ
  avg_metrics : List (String × ℚ)
  form_errors : FormErrors
  full_feedback_history : List String
deriving DecidableEq, Repr

/-- The `avg_metrics` block of `generate_comprehensive_report` (lines
1936–1944): keys of the first non-empty metrics record, excluding deviation
fields and `phase`, averaged over the numeric occurrences across all
non-empty records. -/
def avg_metrics_of (hist : List Metrics) : List (String × ℚ) :=
  let valid := hist.filter fun m => m ≠ []
  match valid with
  | [] => []
  | first :: _ =>
      first.filterMap fun kv =>
        if ¬ substrOf "deviation" kv.1 ∧ kv.1 ≠ "phase" then
          let values := valid.filterMap fun m =>
            match m.lookup kv.1 with
            | some (MVal.num v) => some v
            | _ => none
          if values ≠ [] then some (kv.1, values.sum / (values.length : ℚ)) else none
        else none

/-- `ExerciseAnalyzer.generate_comprehensive_report` (lines 1923–2046),
restricted to its pure, state-derived payload. The method assigns to no
analyzer attribute, so the state comes back unchanged. `now` models the
single wall-clock reading (`time.time()` / `datetime.now()`). -/
def generate_report (s : AnalyzerState) (now : ℚ) : ReportData × AnalyzerState :=
  let duration : ℚ := match s.start_time with | none => 0 | some t => now - t
  let correct_frames :=
    (s.feedback_history.filter fun fb => hasPositive reportPositives fb).length
  let total_frames := s.feedback_history.length
  let form_accuracy : ℚ :=
    if 0 < total_frames then (correct_frames : ℚ) / (total_frames : ℚ) * 100 else 0
  let overall_score := calculate_overall_score s
  let grade : String :=
    if overall_score ≥ 85 then "A"
    else if overall_score ≥ 70 then "B"
    else if overall_score ≥ 50 then "C"
    else "D"
  ({ duration := duration, date := now, overall_score := overall_score,
     form_accuracy := form_accuracy, grade := grade, rep_count := s.rep_count,
     total_frames := total_frames, correct_frames := correct_frames,
     avg_metrics := avg_metrics_of s.metrics_history,
     form_errors := s.form_errors,
     full_feedback_history := s.all_feedback_per_frame }, s)

/-- `ExerciseAnalyzer.calculate_angle` (lines 739–751) over the reals.
There is no zero-length guard in the source: with a zero-length ray the
NumPy division is `0/0.0 → NaN`, which `np.clip` and `np.arccos` propagate,
so the function returns NaN (it does not raise, and it does not return 0);
`none` models that NaN outcome. Otherwise the result is
`degrees(arccos(clip(cos, -1, 1)))`. -/
noncomputable def calculate_angle (a b c : ℚ × ℚ) : Option ℝ :=
  let ba := (a.1 - b.1, a.2 - b.2)
  let bc := (c.1 - b.1, c.2 - b.2)
  if ba = (0, 0) ∨ bc = (0, 0) then
    none
  else
    let dot : ℝ := ((ba.1 * bc.1 + ba.2 * bc.2 : ℚ) : ℝ)
    let na : ℝ := Real.sqrt ((ba.1 ^ 2 + ba.2 ^ 2 : ℚ) : ℝ)
    let nb : ℝ := Real.sqrt ((bc.1 ^ 2 + bc.2 ^ 2 : ℚ) : ℝ)
    let cosine_angle := dot / (na * nb)
    some (Real.arccos (min 1 (max (-1) cosine_angle)) * 180 / Real.pi)

/-- A trivial instantiation of the geometry layer, used only to instantiate
universally quantified theorems at concrete inputs. -/
def g0 : Geom :=
  { angle := fun _ _ _ => 0, align := fun _ _ _ => 0, torsoDeg := fun _ _ => 0 }

/-- An arbitrary concrete frame of landmarks. -/
def lm0 : Landmarks := {}

/-- A fresh squat session: `set_exercise_type(SQUATS)` at time 0
(initial phase `at_top`). -/
def sSquat : AnalyzerState := set_exercise_type initState ExerciseType.SQUATS 0

/-- Knee angles that monotonically decrease 170° → 95° and then increase
back to 170°, yet skip the going-up band on the ascent's last step. -/
def c1CounterAngles : List ℚ := [170, 95, 120, 130, 165, 170]

/-- One 20-frame oscillation 170° → 95° → 170° (linear ramps). -/
def c1Cycle : List ℚ :=
  [170, 162, 155, 147, 140, 132, 125, 117, 110, 102,
   95, 102, 110, 117, 125, 132, 140, 147, 155, 162]

/-- Scenario A: 60 frames oscillating 170° → 95° → 170° three times. -/
def c1Scenario : List ℚ := c1Cycle ++ c1Cycle ++ c1Cycle

/-- A fresh standing-broad-jump session: `set_exercise_type` at time 0
(initial phase `calibrating`). -/
def sBJ : AnalyzerState :=
  set_exercise_type initState ExerciseType.STANDING_BROAD_JUMP 0

/-- One broad-jump frame at the phase-machine level: `detect_broad_jump_phase`
followed by the `self.rep_phase = new_phase` assignment of
`analyze_standing_broad_jump`. `p` is `(avg_hip_x, avg_knee_angle)`. -/
def bjStep (frame_width : ℚ) (s : AnalyzerState) (p : ℚ × ℚ) : AnalyzerState :=
  let d := detect_broad_jump_phase s p.1 p.2 0 frame_width
  { d.2 with rep_phase := d.1 }

/-- A broad-jump session fed a list of `(hip_x, knee_angle)` frames. -/
def bjRun (frame_width : ℚ) (s : AnalyzerState) (frames : List (ℚ × ℚ)) :
    AnalyzerState :=
  frames.foldl (bjStep frame_width) s

/-- A complete broad jump at frame width 1000: 30 calibration frames at
hip 500, preparation, takeoff through hip 530/560, flight peaking at hip 760,
landing at hip 740 with knee 120, and 15 stable landing frames. -/
def c3Frames : List (ℚ × ℚ) :=
  List.replicate 30 (500, 170) ++
  [(500, 100), (530, 170), (560, 170), (660, 170), (760, 170), (740, 120)] ++
  List.replicate 15 (740, 120)

/-- Spec-side definition, from the spec's words: the distance that "is
computed preferentially" at jump completion — the peak hip displacement from
the calibrated baseline over the trajectory samples recorded while the phase
was in takeoff/in_air/landing (including the completing frame's sample that
the recording call appends), as a percentage of frame width. -/
def spec_trajectory_distance (s : AnalyzerState) (hip frame_width : ℚ) : ℚ :=
  (((s.jump_trajectory ++ [hip]).map fun p => |p - s.baseline_hip_x.getD 0|).foldr max 0)
    / frame_width * 100

/-- Composite-session state used to separate the code's deviation averaging
from the claimed one: two frames, one zero-valued and one positive deviation
field, all-positive feedback, one rep of quality 50. -/
def sC2 : AnalyzerState :=
  { sSquat with
      feedback_history := ["Good depth! Now drive up!", "Rep complete! Great job!"],
      metrics_history := [[("knee_angle_deviation", MVal.num 0)],
                          [("knee_angle_deviation", MVal.num 30)]],
      rep_quality_scores := [50],
      rep_count := 1 }

/-- A squat session that has processed one frame (used against claim C5). -/
def sC5 : AnalyzerState :=
  { sSquat with
      feedback_history := ["Excellent form! Keep going strong!"],
      metrics_history := [[("knee_angle", MVal.num 170)]] }

/-- A fresh endurance-run session: `set_exercise_type(ENDURANCE_RUN)` at
time 0 — `process_frame` has no analyzer branch for this type. -/
def sER : AnalyzerState := set_exercise_type initState ExerciseType.ENDURANCE_RUN 0

/-! ## Theorems -/

/-- A string with a non-empty left part stays non-empty under append. -/
theorem str_append_ne (a b : String) (ha : a ≠ "") : a ++ b ≠ "" := by
  intro h
  apply ha
  have hl := congrArg String.length h
  rw [String.length_append] at hl
  have hz : ("" : String).length = 0 := rfl
  have h0 : a.length = 0 := by omega
  cases a with
  | mk data => cases data with
    | nil => rfl
    | cons x xs => simp [String.length] at h0

/-- `joinBar` of a non-empty list of non-empty strings is non-empty. -/
theorem joinBar_ne_empty (l : List String) (hne : l ≠ [])
    (h : ∀ x ∈ l, x ≠ "") : joinBar l ≠ "" := by
  match l with
  | [] => exact absurd rfl hne
  | [a] => exact h a (by simp)
  | a :: b :: t =>
      show a ++ " | " ++ joinBar (b :: t) ≠ ""
      exact str_append_ne _ _ (str_append_ne _ _ (h a (by simp)))

/-- `finishFrame` appends exactly the produced feedback text to the feedback
history, and that text is non-empty whenever every analyzer feedback line is. -/
theorem finishFrame_spec (r : AnalyzerState × Bool × List String × Metrics)
    (h : ∀ x ∈ r.2.2.1, x ≠ "") :
    (finishFrame r).1.feedback_history =
      r.1.feedback_history ++ [(finishFrame r).2.1] ∧
    (finishFrame r).2.1 ≠ "" := by
  unfold finishFrame
  refine ⟨rfl, ?_⟩
  by_cases hl : r.2.2.1 = []
  · simp [hl]
  · simp only [hl, if_neg]
    exact joinBar_ne_empty _ hl h

/-- C5 (amended behaviour): a frame with no usable landmarks is skipped
entirely — `process_frame` returns normally with empty feedback text and
empty metrics, and the session state (in particular both per-frame
histories) is left unchanged, so the previously recorded values remain the
latest ones. -/
theorem C5_missing_detection_skips_frame (g : Geom) (s : AnalyzerState)
    (h w now : ℚ) :
    process_frame g s none h w now = (s, "", []) := rfl

/-- C5 counterexample: the claim says a no-detection frame "reuses the
previous frame's last-known values for history continuity"; in fact no entry
is appended at all — after one processed frame and one no-detection frame the
feedback history still has one entry, not a duplicated carry-forward entry. -/
theorem C5_counterexample :
    (process_frame g0 sC5 none 480 640 0).1.feedback_history =
      ["Excellent form! Keep going strong!"] ∧
    (process_frame g0 sC5 none 480 640 0).1.feedback_history ≠
      ["Excellent form! Keep going strong!",
       "Excellent form! Keep going strong!"] := by
  exact ⟨rfl, by decide⟩

/-- C6 (amended behaviour): calling `process_frame` with landmarks before an
exercise type has been selected does not fail at all: no analyzer branch
matches, and the engine silently appends an empty feedback line and an empty
metrics record to the histories. -/
theorem C6_unset_exercise_appends_empty (g : Geom) (s : AnalyzerState)
    (lm : Landmarks) (h w now : ℚ) (hx : s.exercise_type = none) :
    process_frame g s (some lm) h w now =
      ({ s with feedback_history := s.feedback_history ++ [""],
                metrics_history := s.metrics_history ++ [[]] }, "", []) := by
  unfold process_frame
  rw [hx]

/-- Witness for `C6_unset_exercise_appends_empty` at a fresh analyzer. -/
theorem C6_unset_exercise_appends_empty_witness :
    process_frame g0 initState (some lm0) 480 640 0 =
      ({ initState with feedback_history := [""], metrics_history := [[]] },
       "", []) :=
  C6_unset_exercise_appends_empty g0 initState lm0 480 640 0 rfl

/-- C6 counterexample: the claim says the call "fails fast with an error;
it never silently defaults to processing the frame" — in fact it returns
normally and the feedback history grows (by an empty entry), i.e. the frame
was silently processed without analysis. -/
theorem C6_counterexample :
    (process_frame g0 initState (some lm0) 480 640 0).1.feedback_history = [""] ∧
    (process_frame g0 initState (some lm0) 480 640 0).1.feedback_history ≠
      initState.feedback_history := by
  exact ⟨rfl, by decide⟩

/-- C7 (amended behaviour): `generate_report` with zero frames processed
(empty feedback and metrics histories, no recorded jumps) returns a
well-formed report without raising, but its score is the engine's floor
default — 50 for every composite-scored session (the base score when the
metrics history is empty), 0 only for a standing-broad-jump session — with
zero frames and zero form accuracy. -/
theorem C7_premature_report_defaults (s : AnalyzerState) (now : ℚ)
    (h1 : s.feedback_history = []) (h2 : s.metrics_history = [])
    (h3 : s.jump_distances = []) :
    (generate_report s now).1.overall_score =
      (if s.exercise_type = some ExerciseType.STANDING_BROAD_JUMP then 0 else 50) ∧
    (generate_report s now).1.total_frames = 0 ∧
    (generate_report s now).1.form_accuracy = 0 := by
  unfold generate_report calculate_overall_score calculate_distance_score
  simp [h1, h2, h3]

/-- Witness for `C7_premature_report_defaults`: a fresh squat session. -/
theorem C7_premature_report_defaults_witness :
    (generate_report sSquat 5).1.overall_score =
      (if sSquat.exercise_type = some ExerciseType.STANDING_BROAD_JUMP then 0 else 50) ∧
    (generate_report sSquat 5).1.total_frames = 0 ∧
    (generate_report sSquat 5).1.form_accuracy = 0 :=
  C7_premature_report_defaults sSquat 5 rfl rfl rfl

/-- C7 counterexample: for a squat session with zero frames processed the
report's score is 50, not the zero-valued score the claim requires. -/
theorem C7_counterexample :
    (generate_report sSquat 5).1.overall_score = 50 ∧ (50 : ℚ) ≠ 0 := by
  exact ⟨by decide, by norm_num⟩

/-- C8 (amended behaviour): `generate_report` mutates nothing it reads — the
session state comes back unchanged, and a second call on that state with the
same clock reading yields an identical report. (The literal claim fails only
because the report embeds wall-clock-dependent fields, see the
counterexample.) -/
theorem C8_no_mutation_on_read (s : AnalyzerState) (now : ℚ) :
    (generate_report s now).2 = s ∧
    generate_report ((generate_report s now).2) now = generate_report s now :=
  ⟨rfl, rfl⟩

/-- C8 counterexample: two calls without an intervening `process_frame` are
not bit-identical, because `duration = now − start_time` and the `date` stamp
depend on the wall clock, which advances between the calls (and the report
paths embed a random ObjectId, not modelled): at clock readings 1 and 2 the
same session yields different reports. -/
theorem C8_counterexample :
    (generate_report sSquat 1).1 ≠ (generate_report sSquat 2).1 := by
  intro h
  have hd := congrArg ReportData.duration h
  simp [generate_report, sSquat, set_exercise_type, initState] at hd

/-- C2 (amended): for every composite-scored session with a non-empty metrics
history, the overall score equals the spec formula
`clamp(60 + 25·form_accuracy + 0.10·rep_quality_avg + 5·deviation_score
+ min(2·rep_count, 10), 30, 100)` — with `deviation_score` computed from the
positive deviation samples only (the code's `value > 0` filter), not from all
recorded deviation fields. -/
theorem C2_composite_score_formula (s : AnalyzerState)
    (h1 : s.exercise_type ≠ some ExerciseType.STANDING_BROAD_JUMP)
    (h2 : s.metrics_history ≠ []) :
    calculate_overall_score s = spec_composite_score s := by
  rcases Nat.eq_zero_or_pos s.rep_count with h | h
  · simp only [calculate_overall_score, spec_composite_score, if_neg h1, if_neg h2,
      h, Nat.cast_zero, mul_zero, lt_self_iff_false, if_false]
    norm_num
    ring_nf
  · simp only [calculate_overall_score, spec_composite_score, if_neg h1, if_neg h2,
      if_pos h]
    rw [mul_comm (2 : ℚ) (s.rep_count : ℚ)]
    ring_nf

/-- Witness for `C2_composite_score_formula` at the concrete session `sC2`. -/
theorem C2_composite_score_formula_witness :
    calculate_overall_score sC2 = spec_composite_score sC2 :=
  C2_composite_score_formula sC2 (by decide) (by decide)

unseal Rat.sub Rat.mul Rat.add Rat.inv in
/-- C2 counterexample: on a session whose metrics contain a zero-valued and a
positive deviation field, the code's score (zero deviations excluded from the
average) differs from the claimed formula (averaged over all recorded
deviation fields): 281/3 versus 286/3. -/
theorem C2_counterexample :
    calculate_overall_score sC2 ≠ spec_claimed_composite_score sC2 := by
  decide

/-- C4 (amended): when both rays are non-degenerate, `calculate_angle`
returns the arccosine of the normalized dot product with the cosine clipped
to [-1,1], a value in degrees in [0,180]. (When a ray has zero length the
function does not fail, but it returns NaN — modelled `none` — not 0: there
is no zero-length guard in the source, and `0/0.0 → NaN` propagates through
`np.clip` and `np.arccos`; see the counterexample.) -/
theorem C4_angle_clipped_arccos_range (a b c : ℚ × ℚ)
    (h : ¬((a.1 - b.1, a.2 - b.2) = ((0 : ℚ), (0 : ℚ)) ∨
           (c.1 - b.1, c.2 - b.2) = ((0 : ℚ), (0 : ℚ)))) :
    ∃ θ : ℝ, calculate_angle a b c = some θ ∧ 0 ≤ θ ∧ θ ≤ 180 := by
  unfold calculate_angle
  rw [if_neg h]
  refine ⟨_, rfl, ?_, ?_⟩
  · exact div_nonneg (mul_nonneg (Real.arccos_nonneg _) (by norm_num)) Real.pi_pos.le
  · rw [div_le_iff₀ Real.pi_pos]
    nlinarith [Real.arccos_le_pi
      (min 1 (max (-1) ((((a.1 - b.1) * (c.1 - b.1) + (a.2 - b.2) * (c.2 - b.2) : ℚ) : ℝ) /
        (Real.sqrt (((a.1 - b.1) ^ 2 + (a.2 - b.2) ^ 2 : ℚ) : ℝ) *
         Real.sqrt (((c.1 - b.1) ^ 2 + (c.2 - b.2) ^ 2 : ℚ) : ℝ))))), Real.pi_pos]

/-- Witness for `C4_angle_clipped_arccos_range` at the right angle
`a = (1,0)`, `b = (0,0)`, `c = (0,1)`. -/
theorem C4_angle_clipped_arccos_range_witness :
    ∃ θ : ℝ, calculate_angle (1, 0) (0, 0) (0, 1) = some θ ∧ 0 ≤ θ ∧ θ ≤ 180 :=
  C4_angle_clipped_arccos_range (1, 0) (0, 0) (0, 1) (by norm_num [Prod.ext_iff])

/-- C4 counterexample: with a zero-length ray `b→a` the function does not
return 0 as claimed — the unguarded `0/0.0` division yields NaN (`none`). -/
theorem C4_counterexample :
    calculate_angle (0, 0) (0, 0) (1, 0) = none ∧
    calculate_angle (0, 0) (0, 0) (1, 0) ≠ some 0 := by
  have h : calculate_angle ((0 : ℚ), (0 : ℚ)) ((0 : ℚ), (0 : ℚ)) ((1 : ℚ), (0 : ℚ)) = none := by
    unfold calculate_angle
    rw [if_pos]
    left
    norm_num [Prod.ext_iff]
  exact ⟨h, by rw [h]; simp⟩

set_option maxRecDepth 10000 in
unseal Rat.sub Rat.mul Rat.add Rat.inv in
/-- C3: evaluation of the code at the failing input. In the concrete jump of
`c3Frames` (baseline 500, in-air peak at hip 760, landing at hip 740) the
trajectory recorded while the phase was in takeoff/in_air/landing is
non-empty and its peak displacement is 260 px = 26% of frame width — the
distance the claim says is preferred — yet the code records 24%, the
landing-window fallback: at recording time `track_jump_trajectory` is
invoked while `rep_phase` is still "landing", so its
`if self.rep_phase == "completed"` branch never fires and it returns 0,
making `trajectory_distance > 0` always false. -/
theorem C3_trajectory_fallback_bug :
    (bjRun 1000 sBJ c3Frames).jump_distances = [24] ∧
    (bjRun 1000 sBJ c3Frames).jump_attempts = 1 ∧
    (bjRun 1000 sBJ c3Frames.dropLast).jump_trajectory ≠ [] ∧
    spec_trajectory_distance (bjRun 1000 sBJ c3Frames.dropLast) 740 1000 = 26 ∧
    (24 : ℚ) ≠ 26 := by
  refine ⟨by decide, by decide, by decide, by decide, by decide⟩

/-- `detect_plank_phase` with the body line or elbows out of range yields
`not_holding` and touches nothing. -/
theorem detect_plank_out_of_range (s : AnalyzerState) (body elbow hd now : ℚ)
    (hr : ¬(150 ≤ body ∧ body ≤ 200 ∧ 60 ≤ elbow ∧ elbow ≤ 130)) :
    detect_plank_phase s body elbow hd now = ("not_holding", s) := by
  unfold detect_plank_phase
  rw [if_neg hr]

/-- `detect_plank_phase` entering the hold from a non-holding phase stamps
`plank_start_time` with the current time. -/
theorem detect_plank_in_range_new (s : AnalyzerState) (body elbow hd now : ℚ)
    (hr : 150 ≤ body ∧ body ≤ 200 ∧ 60 ≤ elbow ∧ elbow ≤ 130)
    (hp : s.rep_phase ≠ "holding") :
    detect_plank_phase s body elbow hd now =
      ("holding", { s with plank_start_time := some now }) := by
  unfold detect_plank_phase
  rw [if_pos hr, if_pos hp]

/-- `detect_plank_phase` continuing an ongoing hold leaves the start time
untouched. -/
theorem detect_plank_in_range_stay (s : AnalyzerState) (body elbow hd now : ℚ)
    (hr : 150 ≤ body ∧ body ≤ 200 ∧ 60 ≤ elbow ∧ elbow ≤ 130)
    (hp : s.rep_phase = "holding") :
    detect_plank_phase s body elbow hd now = ("holding", s) := by
  unfold detect_plank_phase
  rw [if_pos hr, if_neg (by simp [hp])]

set_option maxHeartbeats 1000000 in
/-- Out-of-range plank frame: the evaluator ends in `not_holding` with the
start time cleared (`self.plank_start_time = None`, line 1351). -/
theorem plank_eval_out_of_range (s : AnalyzerState) (body elbow now : ℚ)
    (hr : ¬(150 ≤ body ∧ body ≤ 200 ∧ 60 ≤ elbow ∧ elbow ≤ 130)) :
    (plank_eval s body elbow now).1.rep_phase = "not_holding" ∧
    (plank_eval s body elbow now).1.plank_start_time = none := by
  have hd := detect_plank_out_of_range s body elbow
    (if truthy s.plank_start_time then now - s.plank_start_time.getD 0 else 0) now hr
  unfold plank_eval
  simp only [hd]
  simp [plank_hold_feedback]

set_option maxHeartbeats 1000000 in
/-- In-range plank frame from a non-holding phase: the evaluator ends in
`holding` with the start time reset to the current time. -/
theorem plank_eval_in_range_new (s : AnalyzerState) (body elbow now : ℚ)
    (hr : 150 ≤ body ∧ body ≤ 200 ∧ 60 ≤ elbow ∧ elbow ≤ 130)
    (hp : s.rep_phase ≠ "holding") :
    (plank_eval s body elbow now).1.rep_phase = "holding" ∧
    (plank_eval s body elbow now).1.plank_start_time = some now := by
  have hd := detect_plank_in_range_new s body elbow
    (if truthy s.plank_start_time then now - s.plank_start_time.getD 0 else 0) now hr hp
  unfold plank_eval
  simp only [hd]
  simp [plank_hold_feedback, apply_ite Prod.snd,
        apply_ite AnalyzerState.plank_start_time, apply_ite AnalyzerState.rep_phase]

set_option maxHeartbeats 1000000 in
/-- In-range plank frame during an ongoing hold: the evaluator stays in
`holding` and keeps the recorded start time. -/
theorem plank_eval_in_range_stay (s : AnalyzerState) (body elbow now : ℚ)
    (hr : 150 ≤ body ∧ body ≤ 200 ∧ 60 ≤ elbow ∧ elbow ≤ 130)
    (hp : s.rep_phase = "holding") :
    (plank_eval s body elbow now).1.rep_phase = "holding" ∧
    (plank_eval s body elbow now).1.plank_start_time = s.plank_start_time := by
  have hd := detect_plank_in_range_stay s body elbow
    (if truthy s.plank_start_time then now - s.plank_start_time.getD 0 else 0) now hr hp
  unfold plank_eval
  simp only [hd]
  simp [plank_hold_feedback, apply_ite Prod.snd,
        apply_ite AnalyzerState.plank_start_time, apply_ite AnalyzerState.rep_phase]

set_option maxHeartbeats 1000000 in
/-- The `hold_duration` metric written by the plank evaluator is always the
duration computed from the pre-frame `plank_start_time` (lines 1313–1317):
`now − start` when the start time is truthy, else 0. -/
theorem plank_eval_duration (s : AnalyzerState) (body elbow now : ℚ) :
    (plank_eval s body elbow now).2.2.2.lookup "hold_duration" =
      some (MVal.num
        (if truthy s.plank_start_time then now - s.plank_start_time.getD 0 else 0)) := by
  unfold plank_eval
  simp [List.lookup]

/-- C10: the plank classifier resets the hold start time to the current time
whenever it transitions into `holding` from any non-holding phase; the
evaluator clears the start time whenever the resulting phase is
`not_holding`; and consequently the reported `hold_duration` measures only
the current uninterrupted hold — it restarts at 0 on the frame after any
interruption, and during a hold it is `now − start` for the recorded start
of that hold, never cumulative time across interrupted holds. (`hinv` is the
evaluator-maintained invariant that a non-holding session carries no stale
start time, established by `set_exercise_type` and preserved by every frame,
see the second conjunct.) -/
theorem C10_plank_hold_measures_current_hold (s : AnalyzerState)
    (body elbow now t : ℚ)
    (hinv : s.rep_phase = "not_holding" → s.plank_start_time = none) :
    (s.rep_phase ≠ "holding" → (plank_eval s body elbow now).1.rep_phase = "holding" →
       (plank_eval s body elbow now).1.plank_start_time = some now) ∧
    ((plank_eval s body elbow now).1.rep_phase = "not_holding" →
       (plank_eval s body elbow now).1.plank_start_time = none) ∧
    (s.rep_phase = "not_holding" →
       (plank_eval s body elbow now).2.2.2.lookup "hold_duration" =
         some (MVal.num 0)) ∧
    (s.rep_phase = "holding" → s.plank_start_time = some t → t ≠ 0 →
       (plank_eval s body elbow now).2.2.2.lookup "hold_duration" =
         some (MVal.num (now - t))) := by
  refine ⟨?_, ?_, ?_, ?_⟩
  · intro hp _
    by_cases hr : 150 ≤ body ∧ body ≤ 200 ∧ 60 ≤ elbow ∧ elbow ≤ 130
    · exact (plank_eval_in_range_new s body elbow now hr hp).2
    · rename_i hph
      rw [(plank_eval_out_of_range s body elbow now hr).1] at hph
      simp at hph
  · intro hph
    by_cases hr : 150 ≤ body ∧ body ≤ 200 ∧ 60 ≤ elbow ∧ elbow ≤ 130
    · by_cases hp : s.rep_phase = "holding"
      · rw [(plank_eval_in_range_stay s body elbow now hr hp).1] at hph
        simp at hph
      · rw [(plank_eval_in_range_new s body elbow now hr hp).1] at hph
        simp at hph
    · exact (plank_eval_out_of_range s body elbow now hr).2
  · intro hp
    rw [plank_eval_duration, hinv hp]
    simp [truthy]
  · intro _ hst ht
    rw [plank_eval_duration, hst]
    simp [truthy, ht]

/-- Witness for `C10_plank_hold_measures_current_hold`: a fresh plank
session (phase `not_holding`, no start time) at a level body line and
right-angle elbows. -/
theorem C10_plank_hold_measures_current_hold_witness :
    let s := set_exercise_type initState ExerciseType.PLANK_HOLD 0
    (s.rep_phase ≠ "holding" → (plank_eval s 180 90 7).1.rep_phase = "holding" →
       (plank_eval s 180 90 7).1.plank_start_time = some 7) ∧
    ((plank_eval s 180 90 7).1.rep_phase = "not_holding" →
       (plank_eval s 180 90 7).1.plank_start_time = none) ∧
    (s.rep_phase = "not_holding" →
       (plank_eval s 180 90 7).2.2.2.lookup "hold_duration" =
         some (MVal.num 0)) ∧
    (s.rep_phase = "holding" → s.plank_start_time = some 3 → (3 : ℚ) ≠ 0 →
       (plank_eval s 180 90 7).2.2.2.lookup "hold_duration" =
         some (MVal.num (7 - 3))) :=
  C10_plank_hold_measures_current_hold
    (set_exercise_type initState ExerciseType.PLANK_HOLD 0) 180 90 7 3
    (fun _ => rfl)

/-! ### Feedback-history preservation of the phase detectors and analyzers -/

/-- `track_jump_trajectory` never touches the feedback history. -/
theorem track_jump_trajectory_hist (s : AnalyzerState) (x : ℚ) :
    (track_jump_trajectory s x).2.feedback_history = s.feedback_history := by
  simp only [track_jump_trajectory]
  split_ifs <;> rfl

/-- `detect_squat_phase` never touches the feedback history. -/
theorem detect_squat_phase_hist (s : AnalyzerState) (ka hh : ℚ) :
    (detect_squat_phase s ka hh).2.feedback_history = s.feedback_history := by
  simp only [detect_squat_phase]
  split_ifs <;> rfl

/-- `detect_pushup_phase` never touches the feedback history. -/
theorem detect_pushup_phase_hist (s : AnalyzerState) (ea sh : ℚ) :
    (detect_pushup_phase s ea sh).2.feedback_history = s.feedback_history := by
  simp only [detect_pushup_phase]
  split_ifs <;> rfl

/-- `detect_situp_phase` never touches the feedback history. -/
theorem detect_situp_phase_hist (s : AnalyzerState) (ta sh hh : ℚ) :
    (detect_situp_phase s ta sh hh).2.feedback_history = s.feedback_history := by
  simp only [detect_situp_phase]
  split_ifs <;> rfl

/-- `detect_jump_phase` never touches the feedback history. -/
theorem detect_jump_phase_hist (s : AnalyzerState) (a b c : ℚ) :
    (detect_jump_phase s a b c).2.feedback_history = s.feedback_history := by
  cases hb : s.baseline_hip_height
  all_goals simp only [detect_jump_phase, hb]
  all_goals first | rfl | (split_ifs <;> rfl)

/-- The broad-jump calibration branch never touches the feedback history. -/
theorem bjump_calibrate_hist (s : AnalyzerState) (x : ℚ) :
    (bjump_calibrate s x).2.feedback_history = s.feedback_history := by
  dsimp only [bjump_calibrate]
  split_ifs <;> rfl

set_option maxHeartbeats 1000000 in
/-- The broad-jump active phase machine never touches the feedback history. -/
theorem bjump_active_hist (s : AnalyzerState) (cp : String) (a b w : ℚ) :
    (bjump_active s cp a b w).2.feedback_history = s.feedback_history := by
  dsimp only [bjump_active]
  split_ifs <;> first | rfl | exact track_jump_trajectory_hist _ _

/-- `detect_broad_jump_phase` never touches the feedback history. -/
theorem detect_broad_jump_phase_hist (s : AnalyzerState) (a b c w : ℚ) :
    (detect_broad_jump_phase s a b c w).2.feedback_history = s.feedback_history := by
  dsimp only [detect_broad_jump_phase]
  split_ifs <;>
    first
    | exact bjump_calibrate_hist _ _
    | exact Eq.trans (bjump_active_hist _ _ _ _ _) (track_jump_trajectory_hist _ _)

/-- `detect_plank_phase` never touches the feedback history. -/
theorem detect_plank_phase_hist (s : AnalyzerState) (a b c d : ℚ) :
    (detect_plank_phase s a b c d).2.feedback_history = s.feedback_history := by
  simp only [detect_plank_phase]
  split_ifs <;> rfl

/-- The shuttle-run direction block never touches the feedback history. -/
theorem shuttle_direction_update_hist (s : AnalyzerState) (a c w now : ℚ) :
    (shuttle_direction_update s a c w now).2.feedback_history =
      s.feedback_history := by
  dsimp only [shuttle_direction_update]
  split_ifs <;> rfl

set_option maxHeartbeats 1000000 in
/-- The shuttle-run phase machine never touches the feedback history. -/
theorem shuttle_phase_step_hist (s : AnalyzerState) (cp : String) (dc : Bool)
    (a c w now : ℚ) :
    (shuttle_phase_step s cp dc a c w now).2.feedback_history =
      s.feedback_history := by
  dsimp only [shuttle_phase_step]
  split_ifs <;> rfl

/-- The shuttle-run active phase machine never touches the feedback history. -/
theorem shuttle_active_hist (s : AnalyzerState) (cp : String) (a c w now : ℚ) :
    (shuttle_active s cp a c w now).2.feedback_history = s.feedback_history := by
  exact Eq.trans (shuttle_phase_step_hist _ _ _ _ _ _ _)
    (Eq.trans (shuttle_direction_update_hist _ _ _ _ _) rfl)

/-- `detect_shuttle_run_phase` never touches the feedback history. -/
theorem detect_shuttle_run_phase_hist (s : AnalyzerState) (a b c w now : ℚ) :
    (detect_shuttle_run_phase s a b c w now).2.feedback_history = s.feedback_history := by
  dsimp only [detect_shuttle_run_phase]
  cases hb : s.shuttle_baseline_x
  all_goals dsimp only
  all_goals first | rfl | exact shuttle_active_hist _ _ _ _ _ _

/-- The plank hold-feedback block never touches the feedback history. -/
theorem plank_hold_feedback_hist (s : AnalyzerState) (hd : ℚ) (acc : EvalAcc) :
    (plank_hold_feedback s hd acc).2.feedback_history = s.feedback_history := by
  simp only [plank_hold_feedback]
  split_ifs <;> rfl

/-- The squat analyzer core returns a state with the feedback history intact
(`process_frame` alone appends to it). -/
theorem squats_eval_hist (s : AnalyzerState) (ka ta hh al : ℚ) :
    (squats_eval s ka ta hh al).1.feedback_history = s.feedback_history := by
  exact Eq.trans (detect_squat_phase_hist _ _ _) rfl

/-- The pushup analyzer core returns a state with the feedback history intact. -/
theorem pushups_eval_hist (s : AnalyzerState) (ea sh al : ℚ) :
    (pushups_eval s ea sh al).1.feedback_history = s.feedback_history := by
  exact Eq.trans (detect_pushup_phase_hist _ _ _) rfl

/-- The sit-up analyzer core returns a state with the feedback history intact. -/
theorem situps_eval_hist (s : AnalyzerState) (ta ka sh hh sa : ℚ) :
    (situps_eval s ta ka sh hh sa).1.feedback_history = s.feedback_history := by
  exact Eq.trans (detect_situp_phase_hist _ _ _ _) rfl

/-- The vertical-jump analyzer core returns a state with the feedback history
intact. -/
theorem vjump_eval_hist (s : AnalyzerState) (lka rka ahh aah la ra : ℚ) :
    (vjump_eval s lka rka ahh aah la ra).1.feedback_history = s.feedback_history := by
  exact Eq.trans (detect_jump_phase_hist _ _ _ _) rfl

/-- The broad-jump analyzer core returns a state with the feedback history
intact. -/
theorem bjump_eval_hist (s : AnalyzerState) (lka rka ahx aah la ra lh rh w : ℚ) :
    (bjump_eval s lka rka ahx aah la ra lh rh w).1.feedback_history =
      s.feedback_history := by
  exact Eq.trans (detect_broad_jump_phase_hist _ _ _ _ _) rfl

/-- The plank analyzer core returns a state with the feedback history intact. -/
theorem plank_eval_hist (s : AnalyzerState) (a b now : ℚ) :
    (plank_eval s a b now).1.feedback_history = s.feedback_history := by
  exact Eq.trans (plank_hold_feedback_hist _ _ _)
    (Eq.trans (detect_plank_phase_hist _ _ _ _ _) rfl)

/-- The shuttle-run analyzer core returns a state with the feedback history
intact. -/
theorem shuttle_eval_hist (s : AnalyzerState) (lka rka ahx la ra w now : ℚ) :
    (shuttle_eval s lka rka ahx la ra w now).1.feedback_history =
      s.feedback_history := by
  exact Eq.trans (detect_shuttle_run_phase_hist _ _ _ _ _ _) rfl

/-! ### Every analyzer feedback line is a non-empty string -/

theorem FbNE_nil : FbNE [] := by intro x hx; cases hx

theorem FbNE_push (l : List String) (m : String) (h : FbNE l) (hm : m ≠ "") :
    FbNE (l ++ [m]) := by
  intro x hx
  rcases List.mem_append.mp hx with h1 | h1
  · exact h x h1
  · simp at h1; subst h1; exact hm

theorem default_positive_ne (m : String) (acc : EvalAcc) (hm : m ≠ "")
    (h : FbNE acc.fb) : FbNE (default_positive m acc).fb := by
  unfold default_positive
  split_ifs <;> (repeat first | assumption | refine FbNE_push _ _ ?_ hm)

theorem squats_depth_torso_rules_ne (ref phase ka ta acc)
    (h : FbNE acc.fb) : FbNE (squats_depth_torso_rules ref phase ka ta acc).fb := by
  unfold squats_depth_torso_rules
  split_ifs <;> (repeat first | assumption | refine FbNE_push _ _ ?_ (by decide))

theorem squats_alignment_rule_ne (ref phase al acc)
    (h : FbNE acc.fb) : FbNE (squats_alignment_rule ref phase al acc).fb := by
  unfold squats_alignment_rule
  split_ifs <;> (repeat first | assumption | refine FbNE_push _ _ ?_ (by decide))

theorem squats_phase_feedback_ne (phase pc acc)
    (h : FbNE acc.fb) : FbNE (squats_phase_feedback phase pc acc).fb := by
  unfold squats_phase_feedback
  split_ifs <;> (repeat first | assumption | refine FbNE_push _ _ ?_ (by decide))

theorem pushups_depth_rules_ne (ref phase ea acc)
    (h : FbNE acc.fb) : FbNE (pushups_depth_rules ref phase ea acc).fb := by
  unfold pushups_depth_rules
  split_ifs <;> (repeat first | assumption | refine FbNE_push _ _ ?_ (by decide))

theorem pushups_alignment_rule_ne (ref phase al acc)
    (h : FbNE acc.fb) : FbNE (pushups_alignment_rule ref phase al acc).fb := by
  unfold pushups_alignment_rule
  split_ifs <;> (repeat first | assumption | refine FbNE_push _ _ ?_ (by decide))

theorem pushups_phase_feedback_ne (phase pc acc)
    (h : FbNE acc.fb) : FbNE (pushups_phase_feedback phase pc acc).fb := by
  unfold pushups_phase_feedback
  split_ifs <;> (repeat first | assumption | refine FbNE_push _ _ ?_ (by decide))

theorem situps_form_rules_ne (ref phase ta ka acc)
    (h : FbNE acc.fb) : FbNE (situps_form_rules ref phase ta ka acc).fb := by
  dsimp only [situps_form_rules]
  split_ifs <;> (repeat first | assumption | refine FbNE_push _ _ ?_ (by decide))

theorem situps_spine_rule_ne (ref phase sa acc)
    (h : FbNE acc.fb) : FbNE (situps_spine_rule ref phase sa acc).fb := by
  unfold situps_spine_rule
  split_ifs <;> (repeat first | assumption | refine FbNE_push _ _ ?_ (by decide))

theorem situps_phase_feedback_ne (phase pc acc)
    (h : FbNE acc.fb) : FbNE (situps_phase_feedback phase pc acc).fb := by
  unfold situps_phase_feedback
  split_ifs <;> (repeat first | assumption | refine FbNE_push _ _ ?_ (by decide))

theorem situps_speed_rule_ne (p : Option ℚ) (ta : ℚ) (acc : EvalAcc)
    (h : FbNE acc.fb) : FbNE (situps_speed_rule p ta acc).fb := by
  cases p with
  | none => exact h
  | some v =>
      dsimp only [situps_speed_rule]
      split_ifs <;> (repeat first | assumption | refine FbNE_push _ _ ?_ (by decide))

theorem vjump_phase_rules_ne (ref phase lka rka aka acc)
    (h : FbNE acc.fb) :
    FbNE (vjump_phase_rules ref phase lka rka aka acc).fb := by
  unfold vjump_phase_rules
  split_ifs <;> (repeat first | assumption | refine FbNE_push _ _ ?_ (by decide))

theorem vjump_alignment_rule_ne (ref phase aa acc)
    (h : FbNE acc.fb) : FbNE (vjump_alignment_rule ref phase aa acc).fb := by
  unfold vjump_alignment_rule
  split_ifs <;> (repeat first | assumption | refine FbNE_push _ _ ?_ (by decide))

theorem vjump_phase_feedback_ne (phase pc acc)
    (h : FbNE acc.fb) : FbNE (vjump_phase_feedback phase pc acc).fb := by
  unfold vjump_phase_feedback
  split_ifs <;> (repeat first | assumption | refine FbNE_push _ _ ?_ (by decide))

set_option maxHeartbeats 1000000 in
theorem bjump_phase_rules_ne (ref phase lka rka aka lh rh w cjd bd ja acc)
    (h : FbNE acc.fb) :
    FbNE (bjump_phase_rules ref phase lka rka aka lh rh w cjd bd ja acc).fb := by
  dsimp only [bjump_phase_rules]
  split_ifs <;>
    (repeat
      first
      | assumption
      | refine FbNE_push _ _ ?_ (by repeat first | decide | apply str_append_ne))

theorem bjump_alignment_rule_ne (ref phase aa acc)
    (h : FbNE acc.fb) : FbNE (bjump_alignment_rule ref phase aa acc).fb := by
  unfold bjump_alignment_rule
  split_ifs <;> (repeat first | assumption | refine FbNE_push _ _ ?_ (by decide))

theorem plank_body_rules_ne (a acc)
    (h : FbNE acc.fb) : FbNE (plank_body_rules a acc).fb := by
  unfold plank_body_rules
  split_ifs <;> (repeat first | assumption | refine FbNE_push _ _ ?_ (by decide))

theorem plank_elbow_rules_ne (a acc)
    (h : FbNE acc.fb) : FbNE (plank_elbow_rules a acc).fb := by
  unfold plank_elbow_rules
  split_ifs <;> (repeat first | assumption | refine FbNE_push _ _ ?_ (by decide))

theorem plank_hold_feedback_ne (s : AnalyzerState) (hd : ℚ) (acc : EvalAcc)
    (h : FbNE acc.fb) : FbNE (plank_hold_feedback s hd acc).1.fb := by
  unfold plank_hold_feedback
  split_ifs <;>
    (repeat
      first
      | assumption
      | refine FbNE_push _ _ ?_ (by repeat first | decide | apply str_append_ne))

theorem plank_final_rule_ne (phase acc)
    (h : FbNE acc.fb) : FbNE (plank_final_rule phase acc).fb := by
  unfold plank_final_rule
  split_ifs <;> (repeat first | assumption | refine FbNE_push _ _ ?_ (by decide))

theorem shuttle_phase_rules_ne (ref phase aka csd acc)
    (h : FbNE acc.fb) : FbNE (shuttle_phase_rules ref phase aka csd acc).fb := by
  unfold shuttle_phase_rules
  split_ifs <;>
    (repeat
      first
      | assumption
      | refine FbNE_push _ _ ?_ (by repeat first | decide | apply str_append_ne))

theorem shuttle_symmetry_rule_ne (phase asym acc)
    (h : FbNE acc.fb) : FbNE (shuttle_symmetry_rule phase asym acc).fb := by
  unfold shuttle_symmetry_rule
  split_ifs <;> (repeat first | assumption | refine FbNE_push _ _ ?_ (by decide))

theorem shuttle_alignment_rule_ne (ref aa acc)
    (h : FbNE acc.fb) : FbNE (shuttle_alignment_rule ref aa acc).fb := by
  unfold shuttle_alignment_rule
  split_ifs <;> (repeat first | assumption | refine FbNE_push _ _ ?_ (by decide))

theorem shuttle_phase_changed_feedback_ne (phase pc acc)
    (h : FbNE acc.fb) : FbNE (shuttle_phase_changed_feedback phase pc acc).fb := by
  unfold shuttle_phase_changed_feedback
  split_ifs <;> (repeat first | assumption | refine FbNE_push _ _ ?_ (by decide))

/-- Every feedback line produced by the squat analyzer is non-empty. -/
theorem squats_eval_fb_ne (s : AnalyzerState) (ka ta hh al : ℚ) :
    FbNE (squats_eval s ka ta hh al).2.2.1 := by
  unfold squats_eval
  exact default_positive_ne _ _ (by decide)
    (squats_phase_feedback_ne _ _ _
      (squats_alignment_rule_ne _ _ _ _
        (squats_depth_torso_rules_ne _ _ _ _ _ FbNE_nil)))

/-- Every feedback line produced by the pushup analyzer is non-empty. -/
theorem pushups_eval_fb_ne (s : AnalyzerState) (ea sh al : ℚ) :
    FbNE (pushups_eval s ea sh al).2.2.1 := by
  unfold pushups_eval
  exact default_positive_ne _ _ (by decide)
    (pushups_phase_feedback_ne _ _ _
      (pushups_alignment_rule_ne _ _ _ _
        (pushups_depth_rules_ne _ _ _ _ FbNE_nil)))

/-- Every feedback line produced by the sit-up analyzer is non-empty. -/
theorem situps_eval_fb_ne (s : AnalyzerState) (ta ka sh hh sa : ℚ) :
    FbNE (situps_eval s ta ka sh hh sa).2.2.1 := by
  unfold situps_eval
  exact situps_speed_rule_ne _ _ _
    (default_positive_ne _ _ (by decide)
      (situps_phase_feedback_ne _ _ _
        (situps_spine_rule_ne _ _ _ _
          (situps_form_rules_ne _ _ _ _ _ FbNE_nil))))

/-- Every feedback line produced by the vertical-jump analyzer is non-empty. -/
theorem vjump_eval_fb_ne (s : AnalyzerState) (lka rka ahh aah la ra : ℚ) :
    FbNE (vjump_eval s lka rka ahh aah la ra).2.2.1 := by
  unfold vjump_eval
  exact default_positive_ne _ _ (by decide)
    (vjump_phase_feedback_ne _ _ _
      (vjump_alignment_rule_ne _ _ _ _
        (vjump_phase_rules_ne _ _ _ _ _ _ FbNE_nil)))

/-- Every feedback line produced by the broad-jump analyzer is non-empty. -/
theorem bjump_eval_fb_ne (s : AnalyzerState) (lka rka ahx aah la ra lh rh w : ℚ) :
    FbNE (bjump_eval s lka rka ahx aah la ra lh rh w).2.2.1 := by
  unfold bjump_eval
  exact default_positive_ne _ _ (by decide)
    (bjump_alignment_rule_ne _ _ _ _
      (bjump_phase_rules_ne _ _ _ _ _ _ _ _ _ _ _ _ FbNE_nil))

/-- Every feedback line produced by the plank analyzer is non-empty. -/
theorem plank_eval_fb_ne (s : AnalyzerState) (a b now : ℚ) :
    FbNE (plank_eval s a b now).2.2.1 := by
  unfold plank_eval
  exact plank_final_rule_ne _ _
    (plank_hold_feedback_ne _ _ _
      (plank_elbow_rules_ne _ _
        (plank_body_rules_ne _ _ FbNE_nil)))

/-- Every feedback line produced by the shuttle-run analyzer is non-empty. -/
theorem shuttle_eval_fb_ne (s : AnalyzerState) (lka rka ahx la ra w now : ℚ) :
    FbNE (shuttle_eval s lka rka ahx la ra w now).2.2.1 := by
  unfold shuttle_eval
  exact default_positive_ne _ _ (by decide)
    (shuttle_phase_changed_feedback_ne _ _ _
      (shuttle_alignment_rule_ne _ _ _
        (shuttle_symmetry_rule_ne _ _ _
          (shuttle_phase_rules_ne _ _ _ _ _ FbNE_nil))))

/-- C9 (amended behaviour): for every frame with detected landmarks whose
selected exercise has an analyzer branch (every type except ENDURANCE_RUN —
and an unset type, see C6), `process_frame` appends exactly one feedback
entry to the history and that entry is non-empty. The claim's "regardless of
which exercise type was selected" is refuted by `C9_counterexample`. -/
theorem C9_frame_feedback_nonempty (g : Geom) (s : AnalyzerState)
    (lm : Landmarks) (h w now : ℚ) (e : ExerciseType)
    (hx : s.exercise_type = some e) (he : e ≠ ExerciseType.ENDURANCE_RUN) :
    (process_frame g s (some lm) h w now).1.feedback_history =
      s.feedback_history ++ [(process_frame g s (some lm) h w now).2.1] ∧
    (process_frame g s (some lm) h w now).2.1 ≠ "" := by
  cases e with
  | ENDURANCE_RUN => exact absurd rfl he
  | SQUATS =>
      have hne : ∀ x ∈ (analyze_squats g s lm h w).2.2.1, x ≠ "" := by
        apply squats_eval_fb_ne
      have hp : (analyze_squats g s lm h w).1.feedback_history =
          s.feedback_history := by apply squats_eval_hist
      have hs := finishFrame_spec (analyze_squats g s lm h w) hne
      unfold process_frame
      rw [hx]
      refine ⟨?_, hs.2⟩
      show (finishFrame (analyze_squats g s lm h w)).1.feedback_history =
        s.feedback_history ++ [(finishFrame (analyze_squats g s lm h w)).2.1]
      rw [hs.1, hp]
  | PUSHUPS =>
      have hne : ∀ x ∈ (analyze_pushups g s lm h w).2.2.1, x ≠ "" := by
        apply pushups_eval_fb_ne
      have hp : (analyze_pushups g s lm h w).1.feedback_history =
          s.feedback_history := by apply pushups_eval_hist
      have hs := finishFrame_spec (analyze_pushups g s lm h w) hne
      unfold process_frame
      rw [hx]
      refine ⟨?_, hs.2⟩
      show (finishFrame (analyze_pushups g s lm h w)).1.feedback_history =
        s.feedback_history ++ [(finishFrame (analyze_pushups g s lm h w)).2.1]
      rw [hs.1, hp]
  | SITUPS =>
      have hne : ∀ x ∈ (analyze_situps g s lm h w).2.2.1, x ≠ "" := by
        apply situps_eval_fb_ne
      have hp : (analyze_situps g s lm h w).1.feedback_history =
          s.feedback_history := by apply situps_eval_hist
      have hs := finishFrame_spec (analyze_situps g s lm h w) hne
      unfold process_frame
      rw [hx]
      refine ⟨?_, hs.2⟩
      show (finishFrame (analyze_situps g s lm h w)).1.feedback_history =
        s.feedback_history ++ [(finishFrame (analyze_situps g s lm h w)).2.1]
      rw [hs.1, hp]
  | VERTICAL_JUMP =>
      have hne : ∀ x ∈ (analyze_vertical_jump g s lm h w).2.2.1, x ≠ "" := by
        apply vjump_eval_fb_ne
      have hp : (analyze_vertical_jump g s lm h w).1.feedback_history =
          s.feedback_history := by apply vjump_eval_hist
      have hs := finishFrame_spec (analyze_vertical_jump g s lm h w) hne
      unfold process_frame
      rw [hx]
      refine ⟨?_, hs.2⟩
      show (finishFrame (analyze_vertical_jump g s lm h w)).1.feedback_history =
        s.feedback_history ++ [(finishFrame (analyze_vertical_jump g s lm h w)).2.1]
      rw [hs.1, hp]
  | STANDING_BROAD_JUMP =>
      have hne : ∀ x ∈ (analyze_standing_broad_jump g s lm h w).2.2.1, x ≠ "" := by
        apply bjump_eval_fb_ne
      have hp : (analyze_standing_broad_jump g s lm h w).1.feedback_history =
          s.feedback_history := by apply bjump_eval_hist
      have hs := finishFrame_spec (analyze_standing_broad_jump g s lm h w) hne
      unfold process_frame
      rw [hx]
      refine ⟨?_, hs.2⟩
      show (finishFrame (analyze_standing_broad_jump g s lm h w)).1.feedback_history =
        s.feedback_history ++
          [(finishFrame (analyze_standing_broad_jump g s lm h w)).2.1]
      rw [hs.1, hp]
  | PLANK_HOLD =>
      have hne : ∀ x ∈ (analyze_plank_hold g s lm h w now).2.2.1, x ≠ "" := by
        apply plank_eval_fb_ne
      have hp : (analyze_plank_hold g s lm h w now).1.feedback_history =
          s.feedback_history := by apply plank_eval_hist
      have hs := finishFrame_spec (analyze_plank_hold g s lm h w now) hne
      unfold process_frame
      rw [hx]
      refine ⟨?_, hs.2⟩
      show (finishFrame (analyze_plank_hold g s lm h w now)).1.feedback_history =
        s.feedback_history ++ [(finishFrame (analyze_plank_hold g s lm h w now)).2.1]
      rw [hs.1, hp]
  | SHUTTLE_RUN =>
      have hne : ∀ x ∈ (analyze_shuttle_run g s lm h w now).2.2.1, x ≠ "" := by
        apply shuttle_eval_fb_ne
      have hp : (analyze_shuttle_run g s lm h w now).1.feedback_history =
          s.feedback_history := by apply shuttle_eval_hist
      have hs := finishFrame_spec (analyze_shuttle_run g s lm h w now) hne
      unfold process_frame
      rw [hx]
      refine ⟨?_, hs.2⟩
      show (finishFrame (analyze_shuttle_run g s lm h w now)).1.feedback_history =
        s.feedback_history ++ [(finishFrame (analyze_shuttle_run g s lm h w now)).2.1]
      rw [hs.1, hp]

/-- Witness for `C9_frame_feedback_nonempty`: a fresh squat session processing
one concrete frame. -/
theorem C9_frame_feedback_nonempty_witness :
    sSquat.exercise_type = some ExerciseType.SQUATS ∧
    ExerciseType.SQUATS ≠ ExerciseType.ENDURANCE_RUN ∧
    ((process_frame g0 sSquat (some lm0) 480 640 0).1.feedback_history =
       sSquat.feedback_history ++
         [(process_frame g0 sSquat (some lm0) 480 640 0).2.1] ∧
     (process_frame g0 sSquat (some lm0) 480 640 0).2.1 ≠ "") :=
  ⟨rfl, by decide,
   C9_frame_feedback_nonempty g0 sSquat lm0 480 640 0 ExerciseType.SQUATS rfl
     (by decide)⟩

/-- C9 counterexample: with ENDURANCE_RUN selected (a type the claim's
"regardless of which exercise type" covers), `process_frame` falls through to
the no-analyzer branch and appends the empty string to the feedback history. -/
theorem C9_counterexample :
    sER.exercise_type = some ExerciseType.ENDURANCE_RUN ∧
    (process_frame g0 sER (some lm0) 480 640 0).1.feedback_history = [""] ∧
    (process_frame g0 sER (some lm0) 480 640 0).2.1 = "" :=
  ⟨rfl, rfl, rfl⟩

/-! ### The squat phase machine on angle sequences (claim C1) -/

/-- A knee angle above the 160° top threshold keeps an `at_top` squat state
unchanged (no rep is counted: the phase is not `going_up`). -/
theorem squatStep_top_stay (s : AnalyzerState) (x : ℚ)
    (h : s.rep_phase = "at_top") (hx : (160:ℚ) < x) :
    squatStep s x = { s with rep_phase := "at_top" } := by
  dsimp only [squatStep, detect_squat_phase]
  rw [h]
  split_ifs <;> first | rfl | (exfalso; linarith) | (exfalso; simp_all)

/-- A knee angle below the 100° bottom threshold sends every squat state to
`at_bottom`, changing nothing else. -/
theorem squatStep_bottom (s : AnalyzerState) (x : ℚ) (hx : x < (100:ℚ)) :
    squatStep s x = { s with rep_phase := "at_bottom" } := by
  dsimp only [squatStep, detect_squat_phase]
  split_ifs <;> first | rfl | (exfalso; linarith)

/-- A knee angle at or below 160° never increments the rep counter. -/
theorem squatStep_rep_le (s : AnalyzerState) (x : ℚ) (hx : x ≤ (160:ℚ)) :
    (squatStep s x).rep_count = s.rep_count := by
  dsimp only [squatStep, detect_squat_phase]
  split_ifs <;> first | rfl | (exfalso; linarith)

/-- From any mid-rep phase, a knee angle in [150,160] lands in (or stays in)
`going_up`, changing nothing else. -/
theorem squatStep_pivot (s : AnalyzerState) (x : ℚ)
    (h : SquatMidPhase s.rep_phase) (hx1 : (150:ℚ) ≤ x) (hx2 : x ≤ (160:ℚ)) :
    squatStep s x = { s with rep_phase := "going_up" } := by
  rcases h with h | h | h <;> dsimp only [squatStep, detect_squat_phase] <;>
    rw [h] <;> split_ifs <;>
    first
    | rfl
    | (exfalso; linarith)
    | (exfalso; simp_all; linarith)

/-- Crossing above 160° from `going_up` completes the rep: the counter
increments and the phase returns to `at_top`. -/
theorem squatStep_crossing (s : AnalyzerState) (x : ℚ)
    (h : s.rep_phase = "going_up") (hx : (160:ℚ) < x) :
    (squatStep s x).rep_count = s.rep_count + 1 ∧
    (squatStep s x).rep_phase = "at_top" := by
  dsimp only [squatStep, detect_squat_phase]
  rw [h]
  split_ifs <;> first | exact ⟨rfl, rfl⟩ | (exfalso; linarith) | simp_all

/-- The set of mid-rep phases is closed under knee angles at or below 160°. -/
theorem squatStep_closed (s : AnalyzerState) (x : ℚ)
    (h : SquatMidPhase s.rep_phase) (hx : x ≤ (160:ℚ)) :
    SquatMidPhase (squatStep s x).rep_phase := by
  dsimp only [squatStep, detect_squat_phase]
  split_ifs <;>
    first
    | (exfalso; linarith)
    | exact Or.inl rfl
    | exact Or.inr (Or.inl rfl)
    | exact Or.inr (Or.inr rfl)
    | exact h

/-- A squat session distributes over list append. -/
theorem squatRun_append (s : AnalyzerState) (l1 l2 : List ℚ) :
    squatRun s (l1 ++ l2) = squatRun (squatRun s l1) l2 := by
  simp [squatRun, List.foldl_append]

/-- A run of angles above 160° leaves an `at_top` state untouched. -/
theorem squatRun_top_stay (s : AnalyzerState) (h : s.rep_phase = "at_top") :
    ∀ d : List ℚ, (∀ x ∈ d, (160:ℚ) < x) → squatRun s d = s := by
  intro d
  induction d with
  | nil => intro _; rfl
  | cons a t ih =>
      intro hd
      have h1 : squatStep s a = s := by
        rw [squatStep_top_stay s a h (hd a (List.mem_cons_self a t))]
        rw [← h]
      show squatRun (squatStep s a) t = s
      rw [h1]
      exact ih (fun x hx => hd x (List.mem_cons_of_mem a hx))

/-- A run of angles in [150,160] leaves a `going_up` state untouched. -/
theorem squatRun_up_stay (s : AnalyzerState) (h : s.rep_phase = "going_up") :
    ∀ d : List ℚ, (∀ x ∈ d, (150:ℚ) ≤ x ∧ x ≤ 160) → squatRun s d = s := by
  intro d
  induction d with
  | nil => intro _; rfl
  | cons a t ih =>
      intro hd
      have h1 : squatStep s a = s := by
        rw [squatStep_pivot s a (Or.inr (Or.inr h))
          (hd a (List.mem_cons_self a t)).1 (hd a (List.mem_cons_self a t)).2]
        rw [← h]
      show squatRun (squatStep s a) t = s
      rw [h1]
      exact ih (fun x hx => hd x (List.mem_cons_of_mem a hx))

/-- A run of angles at or below 160° never increments the rep counter. -/
theorem squatRun_rep_le :
    ∀ (d : List ℚ) (s : AnalyzerState), (∀ x ∈ d, x ≤ (160:ℚ)) →
      (squatRun s d).rep_count = s.rep_count := by
  intro d
  induction d with
  | nil => intro s _; rfl
  | cons a t ih =>
      intro s hd
      show (squatRun (squatStep s a) t).rep_count = s.rep_count
      rw [ih (squatStep s a) (fun x hx => hd x (List.mem_cons_of_mem a hx))]
      exact squatStep_rep_le s a (hd a (List.mem_cons_self a t))

/-- A run of angles at or below 160° keeps the phase in the mid-rep set. -/
theorem squatRun_mid :
    ∀ (d : List ℚ) (s : AnalyzerState), SquatMidPhase s.rep_phase →
      (∀ x ∈ d, x ≤ (160:ℚ)) → SquatMidPhase (squatRun s d).rep_phase := by
  intro d
  induction d with
  | nil => intro s h _; exact h
  | cons a t ih =>
      intro s h hd
      show SquatMidPhase (squatRun (squatStep s a) t).rep_phase
      exact ih (squatStep s a)
        (squatStep_closed s a h (hd a (List.mem_cons_self a t)))
        (fun x hx => hd x (List.mem_cons_of_mem a hx))

set_option maxRecDepth 10000 in
/-- C1 (amended behaviour): a monotone 170°→90–95°→170° excursion does not
in general count a rep — `detect_squat_phase` chatters between `going_down`
and `going_up` for ascent samples inside (110°,150°) (see
`C1_counterexample`). A rep is counted exactly when the ascent re-enters the
[150°,160°] band before crossing 160°: for any knee-angle sequence
`d1 ++ d2 ++ [m] ++ u1 ++ [b] ++ u2 ++ [c] ++ u3` (top samples `d1`, a
descent `d2` staying ≤160°, a bottom sample `m` in [90°,95°], an ascent `u1`
staying ≤160°, a sample `b` in [150°,160°], further such samples `u2`, a
crossing sample `c` > 160° and top samples `u3`), the phase reaches
`at_bottom` after `m`, is `going_up` after `b`, and ends `at_top` with
`rep_count` increased by exactly 1. The spec's Scenario A (three 20-frame
170°→95°→170° oscillations, `c1Scenario`) does count 3 reps: its ascents
pass through the [150,160] band at sample 155. -/
theorem C1_squat_phase_and_rep
    (s : AnalyzerState) (d1 d2 u1 u2 u3 : List ℚ) (m b c : ℚ)
    (hs : s.rep_phase = "at_top")
    (hd1 : ∀ x ∈ d1, (160:ℚ) < x)
    (hd2 : ∀ x ∈ d2, x ≤ (160:ℚ))
    (_hm1 : (90:ℚ) ≤ m) (hm2 : m ≤ (95:ℚ))
    (hu1 : ∀ x ∈ u1, x ≤ (160:ℚ))
    (hb1 : (150:ℚ) ≤ b) (hb2 : b ≤ (160:ℚ))
    (hu2 : ∀ x ∈ u2, (150:ℚ) ≤ x ∧ x ≤ 160)
    (hc : (160:ℚ) < c)
    (hu3 : ∀ x ∈ u3, (160:ℚ) < x) :
    (squatRun s (d1 ++ d2 ++ [m])).rep_phase = "at_bottom" ∧
    (squatRun s (d1 ++ d2 ++ [m] ++ u1 ++ [b])).rep_phase = "going_up" ∧
    (squatRun s (d1 ++ d2 ++ [m] ++ u1 ++ [b] ++ u2 ++ [c] ++ u3)).rep_phase
      = "at_top" ∧
    (squatRun s (d1 ++ d2 ++ [m] ++ u1 ++ [b] ++ u2 ++ [c] ++ u3)).rep_count
      = s.rep_count + 1 ∧
    (squatRun sSquat c1Scenario).rep_count = 3 := by
  have e1 : squatRun s d1 = s := squatRun_top_stay s hs d1 hd1
  have e2 : squatRun s (d1 ++ d2) = squatRun s d2 := by
    rw [squatRun_append, e1]
  have e3 : squatRun s (d1 ++ d2 ++ [m]) =
      { squatRun s d2 with rep_phase := "at_bottom" } := by
    rw [squatRun_append, e2]
    exact squatStep_bottom (squatRun s d2) m (by linarith)
  have e4 : squatRun s (d1 ++ d2 ++ [m] ++ u1) =
      squatRun { squatRun s d2 with rep_phase := "at_bottom" } u1 := by
    rw [squatRun_append, e3]
  have e5 : squatRun s (d1 ++ d2 ++ [m] ++ u1 ++ [b]) =
      { squatRun { squatRun s d2 with rep_phase := "at_bottom" } u1 with
          rep_phase := "going_up" } := by
    rw [squatRun_append, e4]
    exact squatStep_pivot _ b (squatRun_mid u1 _ (Or.inl rfl) hu1) hb1 hb2
  have e6 : squatRun s (d1 ++ d2 ++ [m] ++ u1 ++ [b] ++ u2) =
      { squatRun { squatRun s d2 with rep_phase := "at_bottom" } u1 with
          rep_phase := "going_up" } := by
    rw [squatRun_append, e5]
    exact squatRun_up_stay _ rfl u2 hu2
  have hcr := squatStep_crossing
    { squatRun { squatRun s d2 with rep_phase := "at_bottom" } u1 with
        rep_phase := "going_up" } c rfl hc
  have e8 : squatRun s (d1 ++ d2 ++ [m] ++ u1 ++ [b] ++ u2 ++ [c] ++ u3) =
      squatStep
        { squatRun { squatRun s d2 with rep_phase := "at_bottom" } u1 with
            rep_phase := "going_up" } c := by
    rw [squatRun_append, squatRun_append, e6]
    exact squatRun_top_stay _ hcr.2 u3 hu3
  refine ⟨by rw [e3], by rw [e5], ?_, ?_, ?_⟩
  · rw [e8]
    exact hcr.2
  · rw [e8, hcr.1]
    have hr : (squatRun { squatRun s d2 with rep_phase := "at_bottom" }
        u1).rep_count = s.rep_count :=
      Eq.trans (squatRun_rep_le u1 _ hu1) (squatRun_rep_le d2 s hd2)
    show (squatRun { squatRun s d2 with rep_phase := "at_bottom" }
        u1).rep_count + 1 = s.rep_count + 1
    rw [hr]
  · decide

/-- Witness for `C1_squat_phase_and_rep`: the concrete excursion
170, 140, 120, 95, 120, 155, 165, 170 from a fresh squat session. -/
theorem C1_squat_phase_and_rep_witness :
    sSquat.rep_phase = "at_top" ∧
    (90:ℚ) ≤ 95 ∧ (150:ℚ) ≤ 155 ∧ (160:ℚ) < 165 ∧
    ((squatRun sSquat ([170] ++ [140, 120] ++ [95])).rep_phase = "at_bottom" ∧
     (squatRun sSquat ([170] ++ [140, 120] ++ [95] ++ [120] ++
        [155])).rep_phase = "going_up" ∧
     (squatRun sSquat ([170] ++ [140, 120] ++ [95] ++ [120] ++ [155] ++ [] ++
        [165] ++ [170])).rep_phase = "at_top" ∧
     (squatRun sSquat ([170] ++ [140, 120] ++ [95] ++ [120] ++ [155] ++ [] ++
        [165] ++ [170])).rep_count = sSquat.rep_count + 1 ∧
     (squatRun sSquat c1Scenario).rep_count = 3) :=
  ⟨rfl, by decide, by decide, by decide,
   C1_squat_phase_and_rep sSquat [170] [140, 120] [120] [] [170] 95 155 165
     rfl (by decide) (by decide) (by decide) (by decide) (by decide)
     (by decide) (by decide) (by decide) (by decide) (by decide)⟩

/-- C1 counterexample: the knee-angle sequence 170, 95, 120, 130, 165, 170 is
monotone decreasing from 170° to 95° and monotone increasing back to 170°,
yet the session counts 0 reps, not 1: the ascent samples 120 and 130 lie in
(110°,150°), so the phase chatters `going_up` → `going_down` and the machine
is not in `going_up` when 165 crosses the 160° threshold. -/
theorem C1_counterexample :
    sSquat.rep_phase = "at_top" ∧
    (95:ℚ) < 170 ∧ ((95:ℚ) < 120 ∧ (120:ℚ) < 130 ∧ (130:ℚ) < 165 ∧ (165:ℚ) < 170) ∧
    c1CounterAngles = [170, 95, 120, 130, 165, 170] ∧
    (squatRun sSquat c1CounterAngles).rep_count = 0 ∧
    (squatRun sSquat c1CounterAngles).rep_count ≠ sSquat.rep_count + 1 := by
  refine ⟨rfl, by norm_num, by norm_num, rfl, by decide, by decide⟩
